import Mathlib

/-!
Verification development for the DSPy bridge (`priv/python/dspy_bridge.py`):
a shallow embedding of the bridge protocol engine, program registry,
signature compiler and framing layer, with theorems about the behaviour
of the embedded operations.

Conventions of the embedding:
* JSON values (the payloads decoded by `json.loads` and the Python values
  handlers work on) are modelled by `JVal`; Python `None` and JSON `null`
  are both `JVal.null`.
* Python dicts are modelled by association lists with dict-update
  semantics (`dset`); insertion order is preserved, as in Python.
* Machine-level concerns (the GIL lock, `gc.collect`, `psutil` memory
  probes, debug logging, `os.environ` writes) have no observable effect on
  the modelled state and are omitted.
* External collaborators (the `dspy` LM calls, `google.generativeai`,
  `json.loads`) are abstracted as oracle functions supplied to the
  embedded operations; everything else is translated from the source.
* `time.time()` is modelled by a natural-number clock in the bridge state.
-/

/-- A JSON/Python value as manipulated by the bridge after `json.loads`.
Numbers are modelled as rationals. -/
inductive JVal where
  | null : JVal
  | b (v : Bool) : JVal
  | num (v : Rat) : JVal
  | str (s : String) : JVal
  | arr (xs : List JVal) : JVal
  | obj (kvs : List (String × JVal)) : JVal
deriving Repr

mutual

/-- Structural equality for `JVal` (Python `==` on decoded JSON values). -/
def JVal.beq : JVal → JVal → Bool
  | .null, .null => true
  | .b v, .b w => v == w
  | .num v, .num w => v == w
  | .str v, .str w => v == w
  | .arr xs, .arr ys => JVal.beqList xs ys
  | .obj xs, .obj ys => JVal.beqObj xs ys
  | _, _ => false

/-- Elementwise equality of JSON arrays. -/
def JVal.beqList : List JVal → List JVal → Bool
  | [], [] => true
  | x :: xs, y :: ys => JVal.beq x y && JVal.beqList xs ys
  | _, _ => false

/-- Entrywise equality of JSON objects (key order significant, as in the
list representation underlying the embedding). -/
def JVal.beqObj : List (String × JVal) → List (String × JVal) → Bool
  | [], [] => true
  | (k, x) :: xs, (l, y) :: ys => k == l && JVal.beq x y && JVal.beqObj xs ys
  | _, _ => false

end

instance : BEq JVal := ⟨JVal.beq⟩

mutual

theorem JVal.beq_refl : ∀ v : JVal, JVal.beq v v = true
  | .null => rfl
  | .b v => by simp [JVal.beq]
  | .num v => by simp [JVal.beq]
  | .str s => by simp [JVal.beq]
  | .arr xs => by simp [JVal.beq, JVal.beqList_refl xs]
  | .obj kvs => by simp [JVal.beq, JVal.beqObj_refl kvs]

theorem JVal.beqList_refl : ∀ xs : List JVal, JVal.beqList xs xs = true
  | [] => rfl
  | x :: xs => by simp [JVal.beqList, JVal.beq_refl x, JVal.beqList_refl xs]

theorem JVal.beqObj_refl : ∀ kvs : List (String × JVal), JVal.beqObj kvs kvs = true
  | [] => rfl
  | (k, v) :: kvs => by simp [JVal.beqObj, JVal.beq_refl v, JVal.beqObj_refl kvs]

end

/-- First binding for key `k` in an association list, under `BEq`. -/
def alookup [BEq κ] (m : List (κ × α)) (k : κ) : Option α :=
  match m with
  | [] => none
  | (k1, v1) :: rest => if k1 == k then some v1 else alookup rest k

/-- Python dict assignment `m[k] = v`: replaces the binding in place when the
key is present, appends it otherwise (insertion order preserved). -/
def dset [BEq κ] (m : List (κ × α)) (k : κ) (v : α) : List (κ × α) :=
  match m with
  | [] => [(k, v)]
  | (k1, v1) :: rest =>
    if k1 == k then (k1, v) :: rest else (k1, v1) :: dset rest k v

/-- `message.get(k, d)`: value stored for `k`, or the default when the key is
absent.  Python raises `AttributeError` when the receiver is not a mapping;
every call site in the bridge either never receives a non-mapping or turns
the resulting exception into the same control-flow branch as a missing key,
so the embedding collapses non-objects to the default. -/
def pyGetD (j : JVal) (k : String) (d : JVal) : JVal :=
  match j with
  | .obj kvs =>
    match alookup kvs k with
    | some v => v
    | none => d
  | _ => d

/-- `message.get(k)`: as `pyGetD` with default `None`.  A stored JSON `null`
and an absent key are indistinguishable, exactly as in Python. -/
def pyGet (j : JVal) (k : String) : JVal :=
  pyGetD j k .null

/-- Python truthiness of a decoded JSON value. -/
def jtruthy : JVal → Bool
  | .null => false
  | .b v => v
  | .num v => v != 0
  | .str s => s != ""
  | .arr xs => !xs.isEmpty
  | .obj kvs => !kvs.isEmpty

/-- The underlying string of a JSON string, `none` for any other value
(call sites that require a string raise `TypeError`/`AttributeError` in
Python on other values). -/
def asStr : JVal → Option String
  | .str s => some s
  | _ => none

/-- The elements of a JSON array, `none` otherwise. -/
def asList : JVal → Option (List JVal)
  | .arr xs => some xs
  | _ => none

/-- The entries of a JSON object, `[]` otherwise. -/
def asObjList : JVal → List (String × JVal)
  | .obj kvs => kvs
  | _ => []

/-- A single-quote character, used to reproduce the quoting in the
bridge's error message strings. -/
def sQuote : String := String.mk [Char.ofNat 39]

/-- `str(v)` for the values that actually reach string interpolation in the
modelled paths (program ids and field names, which are strings; the
renderings of the remaining cases are approximations). -/
def pyStr : JVal → String
  | .str s => s
  | .null => "None"
  | .b true => "True"
  | .b false => "False"
  | .num q => toString q
  | .arr _ => "[...]"
  | .obj _ => "dict"

/-- ASCII whitespace for Python's `str.strip()` (approximated by Lean's
character whitespace predicate). -/
def isPySpace (c : Char) : Bool := c.isWhitespace

/-- Python `s.strip()`. -/
def pyStrip (s : String) : String :=
  String.mk (((s.data.dropWhile isPySpace).reverse.dropWhile isPySpace).reverse)

/-- Splitting a character list at every occurrence of `c` (no collapsing,
as Python's `str.split(sep)` with an explicit separator). -/
def splitOnChar (c : Char) : List Char → List (List Char)
  | [] => [[]]
  | a :: rest =>
    let r := splitOnChar c rest
    if a == c then [] :: r
    else
      match r with
      | h :: t => (a :: h) :: t
      | [] => [[a]]

/-- Python `s.split(c)` for a one-character separator. -/
def pySplit (s : String) (c : Char) : List String :=
  (splitOnChar c s.data).map String.mk

/-- Python `s.lower()` (ASCII case folding). -/
def pyLower (s : String) : String := String.mk (s.data.map Char.toLower)

/-- Whether one character list is an initial segment of another. -/
def chIsInit : List Char → List Char → Bool
  | [], _ => true
  | _ :: _, [] => false
  | a :: as, b :: bs => a == b && chIsInit as bs

/-- Python `s.startswith(p)`. -/
def pyStartsWith (s p : String) : Bool := chIsInit p.data s.data

/-- Python `c in s` for a single character. -/
def pyContains (s : String) (c : Char) : Bool := s.data.contains c

/-- The character-list tail after the first occurrence of `c`. -/
def afterChar (c : Char) : List Char → List Char
  | [] => []
  | a :: rest => if a == c then rest else afterChar c rest

/-- Code-point lexicographic order on character lists: Python's `str`
comparison, which is what `sorted`/`sort_keys` order keys by. -/
def chListLe : List Char → List Char → Bool
  | [], _ => true
  | _ :: _, [] => false
  | a :: as, b :: bs =>
    if a.toNat < b.toNat then true
    else if b.toNat < a.toNat then false
    else chListLe as bs

/-- Python `a <= b` on strings. -/
def strLe (a b : String) : Bool := chListLe a.data b.data

/-- Insert a key-value pair into a list sorted by key (ascending). -/
def insByKey (kv : String × JVal) : List (String × JVal) → List (String × JVal)
  | [] => [kv]
  | x :: xs => if strLe kv.1 x.1 then kv :: x :: xs else x :: insByKey kv xs

/-- Sort object entries by key, as `json.dumps(..., sort_keys=True)` does. -/
def sortEntries : List (String × JVal) → List (String × JVal)
  | [] => []
  | kv :: rest => insByKey kv (sortEntries rest)

mutual

/-- Canonical form of a JSON value with every object's keys sorted.  The
bridge caches compiled signatures under `json.dumps(signature_def,
sort_keys=True)`; two values have equal such dumps exactly when their
`sortKeys` canonical forms are equal (the rendering is injective), so the
embedding uses the canonical form itself as the cache key. -/
def sortKeys : JVal → JVal
  | .null => .null
  | .b v => .b v
  | .num v => .num v
  | .str s => .str s
  | .arr xs => .arr (sortKeysList xs)
  | .obj kvs => .obj (sortEntries (sortKeysObj kvs))

/-- `sortKeys` over an array's elements (array order preserved). -/
def sortKeysList : List JVal → List JVal
  | [] => []
  | x :: xs => sortKeys x :: sortKeysList xs

/-- `sortKeys` over an object's values. -/
def sortKeysObj : List (String × JVal) → List (String × JVal)
  | [] => []
  | (k, v) :: kvs => (k, sortKeys v) :: sortKeysObj kvs

end

/-- A word character in the sense of the regex `\W` used by the bridge
(modelled over the ASCII range; the source uses `re`'s default classes). -/
def isWordChar (c : Char) : Bool := c.isAlphanum || c == '_'

/-- `re.sub(r'\W|^(?=\d)', '_', s)`: every non-word character becomes `_`,
and a leading digit additionally gets an `_` inserted before it (the
empty-match lookahead at position 0). -/
def reSubW (s : String) : String :=
  let mapped := String.mk (s.data.map (fun c => if isWordChar c then c else '_'))
  match s.data with
  | [] => ""
  | c :: _ => if c.isDigit then "_" ++ mapped else mapped

/-- An attribute installed on a dynamically created signature class:
the docstring, a `dspy.InputField(desc=...)`, or a `dspy.OutputField(desc=...)`. -/
inductive FieldAttr where
  | doc (v : JVal)
  | infield (desc : JVal)
  | outfield (desc : JVal)
deriving Repr

/-- The original-name → sanitized-name mapping built during compilation. -/
abbrev FieldMapping := List (String × String)

/-- A dynamically created signature class.  `idx` is the identity of the
class object: `type(...)` allocates a fresh class on every call, so two
classes are "the same cached instance" exactly when their `idx` agree. -/
structure SigClass where
  idx : Nat
  name : String
  attrs : List (String × FieldAttr)
deriving Repr

/-- The validation loop of `_create_signature_class` over one field list
(`inputs` or `outputs`): each entry must be a dict with a truthy `name`. -/
def validateFieldList (fieldType : String) : Nat → List JVal → Except String Unit
  | _, [] => .ok ()
  | i, f :: rest =>
    match f with
    | .obj _ =>
      if jtruthy (pyGet f "name") then validateFieldList fieldType (i + 1) rest
      else .error ("Field definition " ++ toString i ++ " in " ++ fieldType ++
        "s must have a " ++ sQuote ++ "name" ++ sQuote)
    | _ => .error ("Field definition " ++ toString i ++ " in " ++ fieldType ++
        "s must be a dictionary")

/-- One iteration of the field loop of `_create_signature_class`: sanitize
the field name, fall back to `field_<n>` (n = number of names already
mapped, inputs and outputs sharing the counter) when the sanitized name is
empty or starts with `_`, record the mapping and install the attribute. -/
def addField (isInput : Bool) (acc : List (String × FieldAttr) × FieldMapping)
    (fieldDef : JVal) : Except String (List (String × FieldAttr) × FieldMapping) :=
  let (attrs, fm) := acc
  let raw := pyGet fieldDef "name"
  if jtruthy raw then
    match asStr raw with
    | none => .error "TypeError: expected string or bytes-like object"
    | some rawName =>
      let fn0 := reSubW rawName
      let fieldName :=
        if fn0 == "" || pyStartsWith fn0 "_" then "field_" ++ toString fm.length else fn0
      let fm1 := dset fm rawName fieldName
      let descDefault : JVal :=
        .str ((if isInput then "Input field: " else "Output field: ") ++ rawName)
      let desc := pyGetD fieldDef "description" descDefault
      let attrs1 := dset attrs fieldName
        (if isInput then FieldAttr.infield desc else FieldAttr.outfield desc)
      .ok (attrs1, fm1)
  else .ok acc

/-- The field loop of `_create_signature_class` over one list. -/
def addFields (isInput : Bool) : List JVal → (List (String × FieldAttr) × FieldMapping) →
    Except String (List (String × FieldAttr) × FieldMapping)
  | [], acc => .ok acc
  | f :: rest, acc => do
    let acc1 ← addField isInput acc f
    addFields isInput rest acc1

/-- Number of `InputField` attributes installed (the `input_field_count`
check; the docstring entry carries no field tag and is not counted). -/
def countInFields (attrs : List (String × FieldAttr)) : Nat :=
  (attrs.filter (fun p => match p.2 with | .infield _ => true | _ => false)).length

/-- Number of `OutputField` attributes installed. -/
def countOutFields (attrs : List (String × FieldAttr)) : Nat :=
  (attrs.filter (fun p => match p.2 with | .outfield _ => true | _ => false)).length

/-- `_create_signature_class(signature_def)`: validates the definition,
sanitizes the class and field names, and produces the class body (name and
attribute dict) plus the field mapping; `clock` models `int(time.time())`
in the fallback class name.  Exceptions are modelled by `Except.error`;
non-sequence `inputs`/`outputs` and non-string `name`s, which raise
`TypeError`/`AttributeError` in Python mid-way, are collapsed to errors
with approximate messages (the caller treats every exception alike). -/
def createSignatureClass (clock : Nat) (signatureDef : JVal) :
    Except String (String × List (String × FieldAttr) × FieldMapping) :=
  match signatureDef with
  | .obj _ =>
    let inputsV := pyGetD signatureDef "inputs" (.arr [])
    let outputsV := pyGetD signatureDef "outputs" (.arr [])
    if !jtruthy inputsV then .error "Signature must have at least one input field"
    else if !jtruthy outputsV then .error "Signature must have at least one output field"
    else
      match asList inputsV, asList outputsV with
      | some inputs, some outputs => do
        validateFieldList "input" 0 inputs
        validateFieldList "output" 0 outputs
        let rawClassName ←
          (match pyGetD signatureDef "name" (.str "DynamicSignature") with
            | .str s => Except.ok s
            | _ => Except.error "AttributeError: split")
        let base := (pySplit rawClassName (Char.ofNat 46)).getLastD rawClassName
        let cn0 := reSubW base
        let className :=
          if cn0 == "" || pyStartsWith cn0 "_" then "Dynamic_" ++ toString clock else cn0
        let docstring := pyGetD signatureDef "description"
          (.str "A dynamically generated DSPy signature.")
        let acc0 : List (String × FieldAttr) × FieldMapping :=
          ([("__doc__", FieldAttr.doc docstring)], [])
        let acc1 ← addFields true inputs acc0
        let acc2 ← addFields false outputs acc1
        if countInFields acc2.1 == 0 then
          .error "No valid input fields after sanitization"
        else if countOutFields acc2.1 == 0 then
          .error "No valid output fields after sanitization"
        else
          .ok (className, acc2.1, acc2.2)
      | _, _ => .error "TypeError: object is not iterable"
  | _ => .error "Signature definition must be a dictionary"

/-- The signature-class cache together with the supply of fresh class
identities. -/
structure SigCache where
  cache : List (JVal × (SigClass × FieldMapping))
  nextClassId : Nat
deriving Repr

/-- `_get_or_create_signature_class`: looks the canonical (sorted-key)
serialization of the definition up in the cache, compiling and caching on
a miss.  A successful compilation consumes one fresh class identity. -/
def getOrCreateSignatureClass (clock : Nat) (sc : SigCache) (signatureDef : JVal) :
    Except String (SigClass × FieldMapping) × SigCache :=
  let key := sortKeys signatureDef
  match alookup sc.cache key with
  | some v => (.ok v, sc)
  | none =>
    match createSignatureClass clock signatureDef with
    | .error e => (.error e, sc)
    | .ok (name, attrs, fm) =>
      let cls : SigClass := ⟨sc.nextClassId, name, attrs⟩
      (.ok (cls, fm),
        ⟨sc.cache ++ [(key, (cls, fm))], sc.nextClassId + 1⟩)

/-- An executable program object held in a program record: `dspy.Predict`
of a dynamically compiled signature class, or the fixed legacy
`dspy.Predict("question -> answer")`. -/
inductive Program where
  | dynamic (cls : SigClass)
  | legacyQA
deriving Repr

/-- The value stored under the `signature_class` key of a program record:
a real class object (local creation) or the deserialized value carried in
a `program_data` snapshot (the class *name* string from the creation
response). -/
inductive SigTag where
  | cls (c : SigClass)
  | ref (v : JVal)
deriving Repr

/-- A program record.  Python stores these as dicts whose key set depends
on the creating handler (`create_program` vs `create_gemini_program`), so
keys that are present only sometimes are modelled with `Option`: `none`
means the key is absent (or stored as `None`, which every reading site
treats identically). -/
structure ProgramInfo where
  program : Option Program := none
  signatureClass : Option SigTag := none
  signatureDef : Option JVal := none
  fieldMapping : Option FieldMapping := none
  fallbackUsed : Option Bool := none
  createdAt : Nat := 0
  executionCount : Nat := 0
  lastExecuted : Option Nat := none
  variableAware : Option Bool := none
  ptype : Option String := none
  gmodel : Option String := none
  modelName : Option String := none
  signature : Option JVal := none
deriving Repr

/-- The operating mode fixed at process start. -/
inductive Mode where
  | standalone
  | poolWorker
deriving Repr, DecidableEq

/-- Launch-time configuration and environment of the bridge process.
`VARIABLE_AWARE_AVAILABLE` is `False` in this source tree (the
`snakepit_bridge.dspy_integration` module the import needs is absent), so
the variable-aware branches are dead and modelled closed. -/
structure BridgeConfig where
  dspyAvailable : Bool
  geminiAvailable : Bool
  dynamicSignaturesFlag : Bool
  envGeminiKey : Option String
deriving Repr

/-- The mutable state of a `DSPyBridge` instance.  `session_lms` and
`current_session` are omitted: `current_session` is never assigned
anywhere in the source, so the `hasattr(self, 'current_session')` guards
are always false and `session_lms` is never created or read. -/
structure Bridge where
  mode : Mode
  workerId : Option String := none
  programs : List (JVal × ProgramInfo) := []
  commandCount : Nat := 0
  errorCount : Nat := 0
  lmConfigured : Bool := false
  currentLmConfig : Option JVal := none
  sig : SigCache := ⟨[], 0⟩
  clock : Nat := 0
deriving Repr

/-- The result object returned by invoking a `dspy.Predict` program: its
attribute dictionary (`__dict__`) and its `str(...)` rendering. -/
structure Prediction where
  attrs : List (String × JVal)
  rendered : String
deriving Repr

/-- The external collaborators, abstracted: `lmAttempt` is one
`dspy.LM(...) / dspy.settings.configure` attempt for a given model string;
`predictRun` is `program(**kwargs)`; `geminiNewModel` is
`genai.GenerativeModel(name)`; `geminiGenerate` is
`model.generate_content(prompt).text`. -/
structure Oracles where
  lmAttempt : String → Bool
  predictRun : Program → List (String × JVal) → Except String Prediction
  geminiNewModel : String → Except String Unit
  geminiGenerate : String → Except String String

/-- A Python value appearing in a handler's result dictionary. -/
inductive RVal where
  | s (v : String)
  | n (v : Rat)
  | b (v : Bool)
  | j (v : JVal)
  | nil
  | d (kvs : List (String × RVal))
  | l (xs : List RVal)
deriving Repr

/-- A handler's result dictionary. -/
abbrev RDict := List (String × RVal)

/-- The `ping` handler: static status information.  (`current_session` is
never set, so the pool-worker session echo never fires.) -/
def pingH (cfg : BridgeConfig) (st : Bridge) : Bridge × Except String RDict :=
  let base : RDict :=
    [("status", .s "ok"),
     ("timestamp", .n st.clock),
     ("dspy_available", .b cfg.dspyAvailable),
     ("gemini_available", .b cfg.geminiAvailable),
     ("variable_aware_available", .b false),
     ("variable_aware_enabled", .b false),
     ("uptime", .n st.clock),
     ("mode", .s (match st.mode with | .standalone => "standalone" | .poolWorker => "pool-worker"))]
  let resp := match st.workerId with
    | some w => base ++ [("worker_id", .s w)]
    | none => base
  (st, .ok resp)

/-- The body of `configure_lm` up to its own `except` handler; `throw`
models the internal `raise ValueError(...)`.  The three `dspy.LM`
configuration attempts are the `lmAttempt` oracle tried on
`gemini/<model>` (or the model as-is when it already has a `/` prefix),
then `<model>`, then `google/<model>`. -/
def configureLmInner (or : Oracles) (st : Bridge) (args : JVal) :
    Except String (Bridge × RDict) :=
  let model := pyGet args "model"
  let apiKey := pyGet args "api_key"
  let temperature := pyGetD args "temperature" (.num (7 / 10))
  let provider := pyGetD args "provider" (.str "google")
  if !jtruthy model then .error "Model name is required"
  else if !jtruthy apiKey then .error "API key is required"
  else
    match provider == JVal.str "google", asStr model with
    | true, some m =>
      if pyStartsWith m "gemini" then
        let m1 := if pyContains m (Char.ofNat 47) then m else "gemini/" ++ m
        if or.lmAttempt m1 || or.lmAttempt m || or.lmAttempt ("google/" ++ m) then
          .ok ({ st with lmConfigured := true, currentLmConfig := some args },
            [("status", .s "configured"), ("model", .s m),
             ("provider", .j provider), ("temperature", .j temperature)])
        else
          .error ("Failed to configure Gemini model with any format. " ++
            "Google AI Studio requires API key authentication.")
      else
        .error ("Unsupported provider/model combination: " ++ pyStr provider ++
          "/" ++ pyStr model)
    | _, _ =>
      .error ("Unsupported provider/model combination: " ++ pyStr provider ++
        "/" ++ pyStr model)

/-- `configure_lm`: the whole body runs inside `try`; any exception is
caught, counted in `error_count`, and returned as a *normal* result
`{"error": str(e)}` (so the main loop answers with a success envelope). -/
def configureLm (or : Oracles) (st : Bridge) (args : JVal) :
    Bridge × Except String RDict :=
  match configureLmInner or st args with
  | .ok (st1, d) => (st1, .ok d)
  | .error e => ({ st with errorCount := st.errorCount + 1 }, .ok [("error", .s e)])

/-- A JSON number as a natural count (used when reading counters back from
a `program_data` snapshot; negative or fractional values are clipped). -/
def jnum2nat : JVal → Nat
  | .num q => q.floor.toNat
  | _ => 0

/-- The elements of a JSON array, `[]` for any other value. -/
def jlist (v : JVal) : List JVal := (asList v).getD []

/-- The body of `create_program` after the id/mode checks: choose the
dynamic or legacy path, build the program record, store it according to
the mode, and build the result.  For a truthy non-dict `signature` Python
raises `AttributeError` at `signature_def.get('inputs')` (reported as a
failed creation); the embedding's `pyGet` collapse sends that unreachable
shape down the legacy path instead. -/
def createProgramBody (cfg : BridgeConfig) (st : Bridge)
    (args programId signatureDef programType : JVal) : Bridge × Except String RDict :=
  let useDynamic := jtruthy (pyGetD args "use_dynamic_signature" (.b cfg.dynamicSignaturesFlag))
  let dyn := useDynamic && jtruthy signatureDef &&
    jtruthy (pyGet signatureDef "inputs") && jtruthy (pyGet signatureDef "outputs")
  let step : Bridge × Program × Option SigTag × FieldMapping × Bool :=
    if dyn then
      match getOrCreateSignatureClass st.clock st.sig signatureDef with
      | (.ok (cls, fm), sc1) =>
        ({ st with sig := sc1 }, Program.dynamic cls, some (SigTag.cls cls), fm, false)
      | (.error _, sc1) =>
        ({ st with sig := sc1 }, Program.legacyQA, none, [], true)
    else (st, Program.legacyQA, none, [], false)
  match step with
  | (st1, program, sigClass, fieldMapping, fallbackUsed) =>
    let info : ProgramInfo :=
      { program := some program, signatureClass := sigClass,
        signatureDef := some signatureDef, fieldMapping := some fieldMapping,
        fallbackUsed := some fallbackUsed, createdAt := st1.clock,
        executionCount := 0, lastExecuted := none, variableAware := some false }
    let st2 :=
      match st1.mode with
      | .poolWorker =>
        if pyGet args "session_id" == JVal.str "anonymous" then
          { st1 with programs := dset st1.programs programId info }
        else st1
      | .standalone => { st1 with programs := dset st1.programs programId info }
    (st2, .ok
      [("program_id", .j programId), ("status", .s "created"),
       ("signature", .j signatureDef), ("program_type", .j programType),
       ("signature_class", match sigClass with
          | some (.cls c) => .s c.name
          | _ => .nil),
       ("field_mapping", .d (fieldMapping.map (fun p => (p.1, RVal.s p.2)))),
       ("fallback_used", .b fallbackUsed),
       ("signature_def", .j signatureDef),
       ("variable_aware", .b false)])

/-- `create_program`: requires DSPy and a truthy id; in pool-worker mode
requires a session id and performs *no* duplicate check (named-session
storage is the orchestrator's, anonymous sessions overwrite locally); in
standalone mode rejects an id already present in local storage.  The
variable-aware delegation is dead code here (`VARIABLE_AWARE_AVAILABLE`
is false in this tree). -/
def createProgram (cfg : BridgeConfig) (st : Bridge) (args : JVal) :
    Bridge × Except String RDict :=
  if !cfg.dspyAvailable then (st, .error "DSPy not available - cannot create programs")
  else
    let programId := pyGet args "id"
    let signatureDef := pyGetD args "signature" (.obj [])
    let programType := pyGetD args "program_type" (.str "predict")
    if !jtruthy programId then (st, .error "Program ID is required")
    else
      match st.mode with
      | .poolWorker =>
        if !jtruthy (pyGet args "session_id") then
          (st, .error "Session ID required in pool-worker mode")
        else createProgramBody cfg st args programId signatureDef programType
      | .standalone =>
        if (alookup st.programs programId).isSome then
          (st, .error ("Program with ID " ++ sQuote ++ pyStr programId ++ sQuote ++
            " already exists"))
        else createProgramBody cfg st args programId signatureDef programType

/-- `_recreate_program_from_data`: rebuilds a transient program record from
a caller-supplied snapshot.  The dynamic path is retried only when the
snapshot has a truthy `signature_class`, a falsy `fallback_used` and a
truthy `signature_def`; every other case (and any recompilation failure)
falls back to the legacy program with `fallback_used = True`.  The
snapshot's own `field_mapping` value is overwritten on every path, as in
the source. -/
def recreateProgramFromData (cfg : BridgeConfig) (st : Bridge) (programData : JVal) :
    Bridge × Except String ProgramInfo :=
  if !cfg.dspyAvailable then (st, .error "DSPy not available - cannot recreate programs")
  else
    match programData with
    | .obj _ =>
      let signatureDef := pyGetD programData "signature_def" (.obj [])
      let signatureClass := pyGet programData "signature_class"
      let fallbackUsed0 := jtruthy (pyGetD programData "fallback_used" (.b false))
      let step : Bridge × Program × FieldMapping × Bool :=
        if jtruthy signatureClass && !fallbackUsed0 && jtruthy signatureDef then
          match getOrCreateSignatureClass st.clock st.sig signatureDef with
          | (.ok (cls, fm), sc1) =>
            ({ st with sig := sc1 }, Program.dynamic cls, fm, fallbackUsed0)
          | (.error _, sc1) =>
            ({ st with sig := sc1 }, Program.legacyQA, [], true)
        else (st, Program.legacyQA, [], true)
      match step with
      | (st1, program, fieldMapping, fallbackUsed) =>
        (st1, .ok
          { program := some program,
            signatureClass :=
              (match signatureClass with
                | .null => none
                | v => some (SigTag.ref v)),
            signatureDef := some signatureDef,
            fieldMapping := some fieldMapping,
            fallbackUsed := some fallbackUsed,
            createdAt := jnum2nat (pyGetD programData "created_at" (.num st.clock)),
            executionCount := jnum2nat (pyGetD programData "execution_count" (.num 0)),
            lastExecuted :=
              (match pyGet programData "last_executed" with
                | .null => none
                | v => some (jnum2nat v)) })
    | _ => (st, .error "Failed to recreate program from data: AttributeError")

/-- `field['name']` on a field spec: the value, `KeyError` when the key is
absent, `TypeError` when the spec is not a mapping. -/
def fieldNameKey (f : JVal) : Except String JVal :=
  match f with
  | .obj kvs =>
    match alookup kvs "name" with
    | some v => .ok v
    | none => .error (sQuote ++ "name" ++ sQuote)
  | _ => .error "TypeError: field is not subscriptable"

/-- `any(field['name'] == original_name for field in outs)`, with Python's
raising semantics (short-circuits on the first match, raises on a
malformed spec reached before one). -/
def anyFieldNamed (outs : List JVal) (orig : String) : Except String Bool :=
  match outs with
  | [] => .ok false
  | f :: rest => do
    let nm ← fieldNameKey f
    if nm == JVal.str orig then pure true else anyFieldNamed rest orig

/-- `[field['name'] for field in fields]` with raising semantics. -/
def fieldNames : List JVal → Except String (List JVal)
  | [] => .ok []
  | f :: rest => do
    let nm ← fieldNameKey f
    let ns ← fieldNames rest
    pure (nm :: ns)

/-- The no-mapping dynamic extraction loop: read each output field from the
prediction by its original name, substituting the missing-field
placeholder when the attribute is absent. -/
def extractByNames (result : Prediction) : List JVal → List (String × JVal) →
    Except String (List (String × JVal))
  | [], outputs => .ok outputs
  | nm :: rest, outputs =>
    match asStr nm with
    | some name =>
      extractByNames result rest (dset outputs name
        ((alookup result.attrs name).getD
          (.str ("Field " ++ sQuote ++ name ++ sQuote ++ " not found in prediction."))))
    | none => .error "TypeError: attribute name must be string"

/-- The mapped dynamic extraction loop: for each `original → sanitized`
entry whose original names an output field, read the sanitized attribute
from the prediction (placeholder when absent). -/
def extractDynamicMapped (sigDef : JVal) (result : Prediction) :
    FieldMapping → List (String × JVal) → Except String (List (String × JVal))
  | [], outputs => .ok outputs
  | (orig, san) :: rest, outputs => do
    let isOut ← anyFieldNamed (jlist (pyGetD sigDef "outputs" (.arr []))) orig
    let outputs1 :=
      if isOut then
        dset outputs orig
          ((alookup result.attrs san).getD
            (.str ("Field " ++ sQuote ++ san ++ sQuote ++ " not found in prediction.")))
      else outputs
    extractDynamicMapped sigDef result rest outputs1

/-- Legacy Q&A extraction: `result.answer`, else the first public
non-`completions` attribute of `result.__dict__`, else `str(result)` under
the `answer` key. -/
def extractLegacy (result : Prediction) : List (String × JVal) :=
  match alookup result.attrs "answer" with
  | some v => [("answer", v)]
  | none =>
    match result.attrs.find? (fun p => !pyStartsWith p.1 "_" && p.1 != "completions") with
    | some (k, v) => [(k, v)]
    | none => [("answer", .str result.rendered)]

/-- The final-validation block of `execute_program`: when no outputs were
extracted, scavenge the first public attribute, else fall back to a
`result` key holding `str(result)` (a prediction object is always truthy,
so the `"No result"` alternative is unreachable). -/
def finalizeOutputs (result : Prediction) (outputs : List (String × JVal)) :
    List (String × JVal) :=
  if outputs.isEmpty then
    match result.attrs.find? (fun p => !pyStartsWith p.1 "_" && p.1 != "completions") with
    | some (k, v) => [(k, v)]
    | none => [("result", .str result.rendered)]
  else outputs

/-- Output extraction of `execute_program` over the prediction, per
execution mode. -/
def extractOutputs (isDynamic : Bool) (fm : FieldMapping) (sigDef : JVal)
    (result : Prediction) : Except String (List (String × JVal)) := do
  let outputs ←
    if isDynamic then
      if !fm.isEmpty then extractDynamicMapped sigDef result fm []
      else do
        let names ← fieldNames (jlist (pyGetD sigDef "outputs" (.arr [])))
        extractByNames result names []
    else pure (extractLegacy result)
  pure (finalizeOutputs result outputs)

/-- The execution-statistics bump applied to a program record after a
successful invocation. -/
def bumpExec (info : ProgramInfo) (t : Nat) : ProgramInfo :=
  { info with
      executionCount := info.executionCount + 1
      lastExecuted := some t }

/-- The program invocation of `execute_program`: mapped dynamic call,
unmapped dynamic call, or legacy Q&A call. -/
def invokeProgram (or : Oracles) (inputs : JVal) (info : ProgramInfo)
    (program : Program) : Except String Prediction :=
  let isDynamic := info.signatureClass.isSome && !(info.fallbackUsed.getD false)
  let fm := info.fieldMapping.getD []
  if isDynamic then
    if !fm.isEmpty then
      or.predictRun program
        ((asObjList inputs).foldl
          (fun acc p => dset acc ((alookup fm p.1).getD p.1) p.2) [])
    else or.predictRun program (asObjList inputs)
  else
    let dflt := match inputs with
      | .obj ((_, v) :: _) => v
      | _ => JVal.str ""
    or.predictRun program [("question", pyGetD inputs "question" dflt)]

/-- The `try` block of `execute_program`: invoke the program through the
oracle, bump the execution statistics on success (a mutation of the shared
record dict, visible in local storage when the record was resolved from
it), extract the outputs, and wrap any raised exception — including one
raised during extraction, i.e. *after* the statistics bump — in the
`Program execution failed:` message. -/
def executeProgramRun (or : Oracles) (st : Bridge) (programId inputs : JVal)
    (info : ProgramInfo) (fromLocal : Bool) (program : Program) :
    Bridge × Except String RDict :=
  let isDynamic := info.signatureClass.isSome && !(info.fallbackUsed.getD false)
  let fm := info.fieldMapping.getD []
  match invokeProgram or inputs info program with
  | .error e => (st, .error ("Program execution failed: " ++ e))
  | .ok result =>
    let info1 := { info with executionCount := info.executionCount + 1,
                             lastExecuted := some st.clock }
    let st1 :=
      if fromLocal then { st with programs := dset st.programs programId info1 } else st
    let sigDef := match info.signatureDef with
      | some v => v
      | none => info.signature.getD (.obj [])
    match extractOutputs isDynamic fm sigDef result with
    | .error e => (st1, .error ("Program execution failed: " ++ e))
    | .ok outputs =>
      (st1, .ok [("program_id", .j programId), ("outputs", .j (.obj outputs)),
                 ("execution_time", .n st1.clock)])

/-- The LM-configuration check of `execute_program`: when no LM is
configured, attempt one implicit `configure_lm` from the `GEMINI_API_KEY`
environment credential, *ignoring its result*; fail only when the
credential is absent. -/
def ensureLm (cfg : BridgeConfig) (or : Oracles) (st1 : Bridge) :
    Bridge × Except String Unit :=
  if !st1.lmConfigured then
    match cfg.envGeminiKey with
    | some k =>
      ((configureLm or st1 (.obj
        [("model", .str "gemini-1.5-flash"), ("api_key", .str k),
         ("temperature", .num (7 / 10)), ("provider", .str "google")])).1, .ok ())
    | none => (st1, .error "No LM is loaded.")
  else (st1, .ok ())

/-- `execute_program`: resolve the record (from the caller-supplied
snapshot in pool-worker mode when `program_data` is given, from local
storage otherwise), ensure an LM is configured (attempting one implicit
`configure_lm` from the `GEMINI_API_KEY` environment credential, whose
*result is ignored*), then run.  Gemini-created records have no
`program` key, so reaching one here raises `KeyError: 'program'`. -/
def executeProgram (cfg : BridgeConfig) (or : Oracles) (st : Bridge) (args : JVal) :
    Bridge × Except String RDict :=
  let programId := pyGet args "program_id"
  let inputs := pyGetD args "inputs" (.obj [])
  if !jtruthy programId then (st, .error "Program ID is required")
  else
    let resolved : Bridge × Except String (ProgramInfo × Bool) :=
      match st.mode with
      | .poolWorker =>
        if pyGet args "program_data" != JVal.null then
          match recreateProgramFromData cfg st (pyGet args "program_data") with
          | (st1, .ok info) => (st1, .ok (info, false))
          | (st1, .error e) => (st1, .error e)
        else
          match alookup st.programs programId with
          | some info => (st, .ok (info, true))
          | none => (st, .error ("Program not found: " ++ pyStr programId))
      | .standalone =>
        match alookup st.programs programId with
        | some info => (st, .ok (info, true))
        | none => (st, .error ("Program not found: " ++ pyStr programId))
    match resolved with
    | (st1, .error e) => (st1, .error e)
    | (st1, .ok (info, fromLocal)) =>
      match info.program with
      | none => (st1, .error (sQuote ++ "program" ++ sQuote))
      | some program =>
        match ensureLm cfg or st1 with
        | (st2, .error e) => (st2, .error e)
        | (st2, .ok _) =>
          executeProgramRun or st2 programId inputs info fromLocal program

/-- Python `del m[k]`. -/
def derase [BEq κ] (m : List (κ × α)) (k : κ) : List (κ × α) :=
  match m with
  | [] => []
  | (k1, v1) :: rest => if k1 == k then rest else (k1, v1) :: derase rest k

/-- One entry of the standalone `list_programs` listing.  The entry reads
`program_info['signature']` by direct indexing; records made by
`create_program` store the definition under `signature_def` instead, so
listing such a record raises `KeyError: 'signature'`. -/
def programSummary (pid : JVal) (info : ProgramInfo) : Except String RVal :=
  match info.signature with
  | some sigv => .ok (RVal.d
      [("id", .j pid), ("created_at", .n info.createdAt),
       ("execution_count", .n info.executionCount),
       ("last_executed", match info.lastExecuted with | some t => RVal.n t | none => .nil),
       ("signature", .j sigv)])
  | none => .error (sQuote ++ "signature" ++ sQuote)

/-- The standalone listing loop. -/
def listEntries : List (JVal × ProgramInfo) → Except String (List RVal)
  | [] => .ok []
  | (pid, info) :: rest => do
    let e ← programSummary pid info
    let es ← listEntries rest
    pure (e :: es)

/-- `list_programs`.  In pool-worker mode `get_session_from_store` always
returns `None` in this source, so both the named-session path and the
no-session path produce an empty listing. -/
def listProgramsH (st : Bridge) : Bridge × Except String RDict :=
  match st.mode with
  | .poolWorker => (st, .ok [("programs", .l []), ("total_count", .n 0)])
  | .standalone =>
    match listEntries st.programs with
    | .ok entries =>
      (st, .ok [("programs", .l entries), ("total_count", .n entries.length)])
    | .error e => (st, .error e)

/-- `delete_program`.  In pool-worker mode a named session is looked up in
the centralized store, which always returns `None` here, so named-session
deletes fail with `Session not found`. -/
def deleteProgramH (st : Bridge) (args : JVal) : Bridge × Except String RDict :=
  let programId := pyGet args "program_id"
  if !jtruthy programId then (st, .error "Program ID is required")
  else
    match st.mode with
    | .poolWorker =>
      let sessionId := pyGet args "session_id"
      if !jtruthy sessionId then (st, .error "Session ID required in pool-worker mode")
      else if sessionId == JVal.str "anonymous" then
        if (alookup st.programs programId).isNone then
          (st, .error ("Program not found: " ++ pyStr programId))
        else
          ({ st with programs := derase st.programs programId },
           .ok [("program_id", .j programId), ("status", .s "deleted")])
      else (st, .error ("Session not found: " ++ pyStr sessionId))
    | .standalone =>
      if (alookup st.programs programId).isNone then
        (st, .error ("Program not found: " ++ pyStr programId))
      else
        ({ st with programs := derase st.programs programId },
         .ok [("program_id", .j programId), ("status", .s "deleted")])

/-- `get_program_info` (always reads local storage; reading a record made
by `create_program` raises `KeyError: 'signature'`). -/
def getProgramInfoH (st : Bridge) (args : JVal) : Bridge × Except String RDict :=
  let programId := pyGet args "program_id"
  if !jtruthy programId then (st, .error "Program ID is required")
  else
    match alookup st.programs programId with
    | none => (st, .error ("Program not found: " ++ pyStr programId))
    | some info =>
      match info.signature with
      | none => (st, .error (sQuote ++ "signature" ++ sQuote))
      | some sigv =>
        (st, .ok [("program_id", .j programId), ("signature", .j sigv),
                  ("created_at", .n info.createdAt),
                  ("execution_count", .n info.executionCount),
                  ("last_executed",
                    match info.lastExecuted with | some t => RVal.n t | none => .nil)])

/-- `get_stats` (`memory_usage` models the psutil-unavailable branch). -/
def getStatsH (cfg : BridgeConfig) (st : Bridge) : Bridge × Except String RDict :=
  (st, .ok
    [("programs_count", .n st.programs.length),
     ("command_count", .n st.commandCount),
     ("error_count", .n st.errorCount),
     ("uptime", .n st.clock),
     ("memory_usage", .d [("rss", .n 0), ("vms", .n 0), ("percent", .n 0),
        ("error", .s "psutil not available")]),
     ("dspy_available", .b cfg.dspyAvailable),
     ("gemini_available", .b cfg.geminiAvailable)])

/-- `cleanup`: empty the registry, report the count removed. -/
def cleanupH (st : Bridge) : Bridge × Except String RDict :=
  let count := st.programs.length
  ({ st with programs := [] },
   .ok [("status", .s "cleaned"), ("programs_removed", .n count)])

/-- `reset_state`: `cleanup` plus zeroing both counters (the reported
`commands_reset` includes the increment `handle_command` already applied
for this very command). -/
def resetStateH (st : Bridge) : Bridge × Except String RDict :=
  let pc := st.programs.length
  let cc := st.commandCount
  let ec := st.errorCount
  ({ st with programs := [], commandCount := 0, errorCount := 0 },
   .ok [("status", .s "reset"), ("programs_cleared", .n pc),
        ("commands_reset", .n cc), ("errors_reset", .n ec)])

/-- `cleanup_session` (pool-worker only; session cleanup is centralized,
so the handler only acknowledges). -/
def cleanupSessionH (st : Bridge) (args : JVal) : Bridge × Except String RDict :=
  if st.mode != Mode.poolWorker then
    (st, .ok [("status", .s "not_applicable"), ("mode", .s "standalone")])
  else
    let sessionId := pyGet args "session_id"
    if !jtruthy sessionId then (st, .error "Session ID required for cleanup")
    else (st, .ok [("status", .s "cleaned"), ("session_id", .j sessionId),
                   ("programs_removed", .n 0)])

/-- `shutdown`: clears the local registry in standalone mode and
acknowledges (the process exit itself is driven by the peer). -/
def shutdownH (st : Bridge) : Bridge × Except String RDict :=
  let st1 := match st.mode with
    | .poolWorker => st
    | .standalone => { st with programs := [] }
  (st1, .ok [("status", .s "shutting_down"),
    ("worker_id", match st.workerId with | some w => RVal.s w | none => .nil),
    ("mode", .s (match st.mode with
      | .standalone => "standalone"
      | .poolWorker => "pool-worker")),
    ("sessions_cleaned", .n 0)])

/-- `create_gemini_program`: always stores locally (no mode split), with
the gemini-specific record shape (`type`/`model`/`model_name`/`signature`
keys, no `program` key). -/
def createGeminiProgram (cfg : BridgeConfig) (or : Oracles) (st : Bridge) (args : JVal) :
    Bridge × Except String RDict :=
  if !cfg.geminiAvailable then
    (st, .error "Gemini not available - cannot create Gemini programs")
  else
    let programId := pyGet args "id"
    let signatureDef := pyGetD args "signature" (.obj [])
    let modelName := pyStr (pyGetD args "model" (.str "gemini-1.5-flash"))
    if !jtruthy programId then (st, .error "Program ID is required")
    else if (alookup st.programs programId).isSome then
      (st, .error ("Program with ID " ++ sQuote ++ pyStr programId ++ sQuote ++
        " already exists"))
    else
      match or.geminiNewModel modelName with
      | .error e => (st, .error ("Failed to create Gemini program: " ++ e))
      | .ok _ =>
        let info : ProgramInfo :=
          { ptype := some "gemini", gmodel := some modelName,
            modelName := some modelName, signature := some signatureDef,
            createdAt := st.clock, executionCount := 0, lastExecuted := none }
        ({ st with programs := dset st.programs programId info },
         .ok [("program_id", .j programId), ("status", .s "created"),
              ("type", .s "gemini"), ("model_name", .s modelName),
              ("signature", .j signatureDef)])

/-- The instruction line of `_build_gemini_prompt`, derived from the
output fields. -/
def geminiInstruction (outputFields : List JVal) : String :=
  match outputFields with
  | [f] =>
    "Please provide " ++
      pyStr (pyGetD f "description" (pyGetD f "name" (.str "an answer"))) ++ "."
  | _ =>
    let names := outputFields.map (fun f => pyStr (pyGetD f "name" (.str "output")))
    "Please provide the following: " ++ String.intercalate ", " names ++ "."

/-- One input line of `_build_gemini_prompt`. -/
def geminiInputPart (inputs : JVal) (f : JVal) : String :=
  let fieldName := pyGet f "name"
  let fieldValue := match asStr fieldName with
    | some n => pyGetD inputs n (.str "")
    | none => JVal.str ""
  let fieldDesc := pyGetD f "description" (.str "")
  if jtruthy fieldDesc then pyStr fieldDesc ++ ": " ++ pyStr fieldValue
  else pyStr fieldName ++ ": " ++ pyStr fieldValue

/-- One line of the response-format block of `_build_gemini_prompt`. -/
def geminiFormatPart (f : JVal) : String :=
  let fieldName := pyGet f "name"
  let fieldDesc := pyGetD f "description" (.str "")
  if jtruthy fieldDesc then
    pyStr fieldName ++ ": [your " ++ pyLower (pyStr fieldDesc) ++ "]"
  else pyStr fieldName ++ ": [your response]"

/-- `_build_gemini_prompt`: instruction, one line per input field, and an
explicit response-format block, joined by blank lines. -/
def buildGeminiPrompt (signatureDef inputs : JVal) : String :=
  let inputFields := jlist (pyGetD signatureDef "inputs" (.arr []))
  let outputFields := jlist (pyGetD signatureDef "outputs" (.arr []))
  let parts1 := [geminiInstruction outputFields] ++ inputFields.map (geminiInputPart inputs)
  let formatParts := outputFields.map geminiFormatPart
  let parts2 :=
    if formatParts.isEmpty then parts1
    else parts1 ++
      ["\nPlease respond in this format:\n" ++ String.intercalate "\n" formatParts]
  String.intercalate "\n\n" parts2

/-- `line.split(':', 1)[1]`: the text after the first colon (only reached
on lines the caller has checked to contain one). -/
def afterFirstColon (line : String) : String :=
  String.mk (afterChar (Char.ofNat 58) line.data)

/-- The line scan of `_parse_gemini_response` for one field: the stripped
text after the first colon of the first line starting (case-insensitively)
with `<field_name>:`, or `""` when no line matches — indistinguishable, as
in the source, from a matching line whose value strips to `""`. -/
def findFieldLine (fieldName : String) : List String → String
  | [] => ""
  | line :: rest =>
    if pyStartsWith (pyLower line) (pyLower fieldName ++ ":") then
      pyStrip (afterFirstColon line)
    else findFieldLine fieldName rest

/-- The per-field loop of `_parse_gemini_response`: a falsy scan result
combined with exactly one output field substitutes the whole stripped
response. -/
def parseGeminiFields (lines : List String) (wholeTrim : String) (nFields : Nat) :
    List JVal → List (String × String) → Except String (List (String × String))
  | [], outputs => .ok outputs
  | f :: rest, outputs =>
    match asStr (pyGet f "name") with
    | some fieldName =>
      let v := findFieldLine fieldName lines
      let v1 := if v == "" && nFields == 1 then wholeTrim else v
      parseGeminiFields lines wholeTrim nFields rest (dset outputs fieldName v1)
    | none => .error "AttributeError: lower"

/-- `_parse_gemini_response`. -/
def parseGeminiResponse (signatureDef : JVal) (responseText : String) :
    Except String (List (String × String)) :=
  let outputFields := jlist (pyGetD signatureDef "outputs" (.arr []))
  let lines := pySplit (pyStrip responseText) (Char.ofNat 10)
  parseGeminiFields lines (pyStrip responseText) outputFields.length outputFields []

/-- `execute_gemini_program`. -/
def executeGeminiProgram (or : Oracles) (st : Bridge) (args : JVal) :
    Bridge × Except String RDict :=
  let programId := pyGet args "program_id"
  let inputs := pyGetD args "inputs" (.obj [])
  if !jtruthy programId then (st, .error "Program ID is required")
  else
    match alookup st.programs programId with
    | none => (st, .error ("Program not found: " ++ pyStr programId))
    | some info =>
      if info.ptype != some "gemini" then
        (st, .error ("Program " ++ pyStr programId ++ " is not a Gemini program"))
      else
        match info.gmodel with
        | none => (st, .error (sQuote ++ "model" ++ sQuote))
        | some _model =>
          match info.signature with
          | none => (st, .error (sQuote ++ "signature" ++ sQuote))
          | some signatureDef =>
            match or.geminiGenerate (buildGeminiPrompt signatureDef inputs) with
            | .error e => (st, .error ("Gemini program execution failed: " ++ e))
            | .ok responseText =>
              match parseGeminiResponse signatureDef responseText with
              | .error e => (st, .error ("Gemini program execution failed: " ++ e))
              | .ok outputs =>
                let info1 := { info with
                  executionCount := info.executionCount + 1,
                  lastExecuted := some st.clock }
                ({ st with programs := dset st.programs programId info1 },
                 .ok [("program_id", .j programId),
                      ("outputs", .d (outputs.map (fun p => (p.1, RVal.s p.2)))),
                      ("execution_time", .n st.clock),
                      ("raw_response", .s responseText)])

/-- `get_session_data` (session data is centralized; missing id is
reported as a *normal* error-keyed result). -/
def getSessionDataH (st : Bridge) (args : JVal) : Bridge × Except String RDict :=
  let sessionId := pyGet args "session_id"
  if !jtruthy sessionId then (st, .ok [("error", .s "session_id is required")])
  else (st, .ok [("session_id", .j sessionId), ("status", .s "not_stored_locally"),
                 ("message", .s "Session data is managed centrally in Elixir")])

/-- `update_session_data` (acknowledges only). -/
def updateSessionDataH (st : Bridge) (args : JVal) : Bridge × Except String RDict :=
  let sessionId := pyGet args "session_id"
  if !jtruthy sessionId then (st, .ok [("error", .s "session_id is required")])
  else (st, .ok [("session_id", .j sessionId), ("status", .s "acknowledged"),
                 ("message", .s "Update acknowledged - session data managed centrally")])

/-- The command table of `handle_command`. -/
def commandNames : List String :=
  ["ping", "configure_lm", "create_program", "create_gemini_program",
   "execute_program", "execute_gemini_program", "list_programs",
   "delete_program", "get_stats", "cleanup", "reset_state",
   "get_program_info", "cleanup_session", "shutdown", "get_session_data",
   "update_session_data", "update_variable_bindings", "get_variable_bindings"]

/-- Dispatch a known command name to its handler.  The two variable-aware
handlers return their feature-unavailable error dict immediately, since
`variable_aware_enabled` is false in this source tree. -/
def dispatch (cfg : BridgeConfig) (or : Oracles) (st : Bridge) (c : String)
    (args : JVal) : Bridge × Except String RDict :=
  if c == "ping" then pingH cfg st
  else if c == "configure_lm" then configureLm or st args
  else if c == "create_program" then createProgram cfg st args
  else if c == "create_gemini_program" then createGeminiProgram cfg or st args
  else if c == "execute_program" then executeProgram cfg or st args
  else if c == "execute_gemini_program" then executeGeminiProgram or st args
  else if c == "list_programs" then listProgramsH st
  else if c == "delete_program" then deleteProgramH st args
  else if c == "get_stats" then getStatsH cfg st
  else if c == "cleanup" then cleanupH st
  else if c == "reset_state" then resetStateH st
  else if c == "get_program_info" then getProgramInfoH st args
  else if c == "cleanup_session" then cleanupSessionH st args
  else if c == "shutdown" then shutdownH st
  else if c == "get_session_data" then getSessionDataH st args
  else if c == "update_session_data" then updateSessionDataH st args
  else if c == "update_variable_bindings" then
    (st, .ok [("error", .s "Variable-aware features not available")])
  else if c == "get_variable_bindings" then
    (st, .ok [("error", .s "Variable-aware features not available")])
  else (st, .error ("Unknown command: " ++ c))

/-- `handle_command`: bump `command_count`, reject unknown commands
(counted as errors), run the handler, and count any exception it raises
before re-raising.  A non-string command is never in the handler table
(an unhashable one raises `TypeError` instead, also surfaced as a failed
envelope); the embedding reports both as unknown. -/
def handleCommand (cfg : BridgeConfig) (or : Oracles) (st : Bridge)
    (command args : JVal) : Bridge × Except String RDict :=
  let st0 := { st with commandCount := st.commandCount + 1 }
  match asStr command with
  | some c =>
    if commandNames.contains c then
      match dispatch cfg or st0 c args with
      | (st1, .ok d) => (st1, .ok d)
      | (st1, .error e) => ({ st1 with errorCount := st1.errorCount + 1 }, .error e)
    else ({ st0 with errorCount := st0.errorCount + 1 }, .error ("Unknown command: " ++ c))
  | none =>
    ({ st0 with errorCount := st0.errorCount + 1 },
     .error ("Unknown command: " ++ pyStr command))

/-- An outbound response envelope as written by `write_message`. -/
structure OutEnv where
  id : JVal
  success : Bool
  result : Option RDict
  error : Option String
  timestamp : Nat
deriving Repr

/-- What one loop iteration does with a decoded message: skip it (missing
`id`/`command`), write exactly one reply, or crash the loop (a decoded
payload that is not an object makes `message.get` raise, which escapes the
while-loop to the outer handler and ends `main`). -/
inductive StepOut where
  | skip
  | reply (e : OutEnv)
  | crash
deriving Repr

/-- The body of `main`'s while-loop on one decoded message: extract
`id`/`command`/`args`, skip when either of the first two is `None`, else
dispatch and write exactly one success or failure envelope keyed by the
request id.  Writes are modelled as always succeeding (the
`BrokenPipeError` paths, which drop the response and continue, are I/O
conditions outside the embedding).  The clock ticks once per handled
command. -/
def mainStep (cfg : BridgeConfig) (or : Oracles) (st : Bridge) (msg : JVal) :
    Bridge × StepOut :=
  match msg with
  | .obj _ =>
    let requestId := pyGet msg "id"
    let command := pyGet msg "command"
    let args := pyGetD msg "args" (.obj [])
    if requestId == JVal.null || command == JVal.null then (st, .skip)
    else
      let st1 := { st with clock := st.clock + 1 }
      match handleCommand cfg or st1 command args with
      | (st2, .ok d) => (st2, .reply ⟨requestId, true, some d, none, st2.clock⟩)
      | (st2, .error e) => (st2, .reply ⟨requestId, false, none, some e, st2.clock⟩)
  | _ => (st, .crash)

/-- Big-endian 32-bit length of the 4 header bytes (`struct.unpack('>I')`). -/
def beLen (bs : List Nat) : Nat :=
  match bs with
  | [b0, b1, b2, b3] => ((b0 * 256 + b1) * 256 + b2) * 256 + b3
  | _ => 0

/-- The 4 big-endian header bytes of a length (`struct.pack('>I', n)`). -/
def encodeLen (n : Nat) : List Nat :=
  [n / 16777216 % 256, n / 65536 % 256, n / 256 % 256, n % 256]

/-- A complete frame: 4-byte big-endian length prefix plus payload. -/
def mkFrame (payload : List Nat) : List Nat := encodeLen payload.length ++ payload

/-- `read_message()` over a byte stream.  The header and payload are read
by blocking loops that return `None` on end-of-stream wherever it occurs;
a payload that fails to decode (bad UTF-8 or malformed JSON, the `decode`
oracle returning `none`) is caught and also reported as `None`, the frame
having been consumed.  The second component is the unconsumed remainder of
the stream. -/
def readMessage (decode : List Nat → Option JVal) (s : List Nat) :
    Option JVal × List Nat :=
  if s.length < 4 then (none, [])
  else
    let len := beLen (s.take 4)
    let rest := s.drop 4
    if rest.length < len then (none, [])
    else
      match decode (rest.take len) with
      | some j => (some j, rest.drop len)
      | none => (none, rest.drop len)

/-- The while-loop of `main`, driven by fuel (one unit per iteration; each
iteration consumes at least one byte, so `s.length` units always suffice —
see `runMain`).  A `None` from `read_message` breaks the loop in
standalone mode and continues in pool-worker mode; an exhausted stream
models the engine blocking for input with no frame pending. -/
def runLoopFuel (cfg : BridgeConfig) (or : Oracles) (decode : List Nat → Option JVal) :
    Nat → Bridge → List Nat → Bridge × List OutEnv
  | 0, st, _ => (st, [])
  | fuel + 1, st, s =>
    if s.isEmpty then (st, [])
    else
    match readMessage decode s with
    | (none, rest) =>
      match st.mode with
      | .standalone => (st, [])
      | .poolWorker => runLoopFuel cfg or decode fuel st rest
    | (some j, rest) =>
      match mainStep cfg or st j with
      | (st1, .skip) => runLoopFuel cfg or decode fuel st1 rest
      | (st1, .reply e) =>
        let r := runLoopFuel cfg or decode fuel st1 rest
        (r.1, e :: r.2)
      | (st1, .crash) => (st1, [])

/-- `main`'s loop on a finite inbound stream. -/
def runMain (cfg : BridgeConfig) (or : Oracles) (decode : List Nat → Option JVal)
    (st : Bridge) (s : List Nat) : Bridge × List OutEnv :=
  runLoopFuel cfg or decode s.length st s

/-- Execution count of the registry record for `pid` (0 when absent). -/
def countOf (st : Bridge) (pid : JVal) : Nat :=
  match alookup st.programs pid with
  | some info => info.executionCount
  | none => 0

/-- The bridge state after a sequence of `execute_program` calls. -/
def execFold (cfg : BridgeConfig) (or : Oracles) : List JVal → Bridge → Bridge
  | [], st => st
  | a :: rest, st => execFold cfg or rest (executeProgram cfg or st a).1

/-- Whether every call in a sequence of `execute_program` calls succeeds
(each run from the state the previous one produced). -/
def execAllOk (cfg : BridgeConfig) (or : Oracles) : List JVal → Bridge → Bool
  | [], _ => true
  | a :: rest, st =>
    match executeProgram cfg or st a with
    | (st1, .ok _) => execAllOk cfg or rest st1
    | (_, .error _) => false

/-- A key of a handler's successful result dictionary. -/
def resLookup (r : Except String RDict) (k : String) : Option RVal :=
  match r with
  | .ok d => alookup d k
  | .error _ => none

/-- The class identity carried in a signature-compilation result. -/
def clsIdxOf (r : Except String (SigClass × FieldMapping)) : Option Nat :=
  match r with
  | .ok (c, _) => some c.idx
  | .error _ => none

/-- The field mapping of a raw compilation result. -/
def fmOf (r : Except String (String × List (String × FieldAttr) × FieldMapping)) :
    FieldMapping :=
  match r with
  | .ok t => t.2.2
  | .error _ => []

/-- A configuration with both SDKs importable, dynamic signatures on, and
no `GEMINI_API_KEY` in the environment. -/
def cfgStd : BridgeConfig := ⟨true, true, true, none⟩

/-- An oracle whose program invocations return a prediction carrying an
`answer` attribute. -/
def orAnswer : Oracles :=
  ⟨fun _ => true, fun _ _ => .ok ⟨[("answer", .str "four")], "pred"⟩,
   fun _ => .ok (), fun _ => .ok "resp"⟩

/-- An oracle whose program invocations always raise. -/
def orFail : Oracles :=
  ⟨fun _ => true, fun _ _ => .error "boom", fun _ => .ok (), fun _ => .ok "resp"⟩

/-- A fresh standalone bridge. -/
def stStandalone : Bridge := { mode := .standalone }

/-- A fresh pool-worker bridge. -/
def stPool : Bridge := { mode := .poolWorker }

/-- `{"inputs": [{"name": "a"}, {"name": "b"}], "outputs": [{"name": "c"}]}`. -/
def reorderDefA : JVal :=
  .obj [("inputs", .arr [.obj [("name", .str "a")], .obj [("name", .str "b")]]),
        ("outputs", .arr [.obj [("name", .str "c")]])]

/-- `reorderDefA` with the `inputs` field list reversed. -/
def reorderDefB : JVal :=
  .obj [("inputs", .arr [.obj [("name", .str "b")], .obj [("name", .str "a")]]),
        ("outputs", .arr [.obj [("name", .str "c")]])]

/-- `reorderDefA` with the top-level keys reordered. -/
def reorderDefC : JVal :=
  .obj [("outputs", .arr [.obj [("name", .str "c")]]),
        ("inputs", .arr [.obj [("name", .str "a")], .obj [("name", .str "b")]])]

/-- Compiling `reorderDefA` into an empty cache. -/
def reorderStep1 : Except String (SigClass × FieldMapping) × SigCache :=
  getOrCreateSignatureClass 0 ⟨[], 0⟩ reorderDefA

/-- Then compiling the list-reordered `reorderDefB`. -/
def reorderStep2 : Except String (SigClass × FieldMapping) × SigCache :=
  getOrCreateSignatureClass 0 reorderStep1.2 reorderDefB

/-- The compiled `(class, mapping)` pair for `reorderDefA` in an empty
cache: class identity 0. -/
def reorderCompiled : SigClass × FieldMapping :=
  (⟨0, "DynamicSignature",
    [("__doc__", FieldAttr.doc (.str "A dynamically generated DSPy signature.")),
     ("a", FieldAttr.infield (.str "Input field: a")),
     ("b", FieldAttr.infield (.str "Input field: b")),
     ("c", FieldAttr.outfield (.str "Output field: c"))]⟩,
   [("a", "a"), ("b", "b"), ("c", "c")])

/-- A definition with two distinct input names that sanitize to the same
non-underscore-prefixed name. -/
def collisionDef : JVal :=
  .obj [("inputs", .arr [.obj [("name", .str "a?")], .obj [("name", .str "a!")]]),
        ("outputs", .arr [.obj [("name", .str "out")]])]

/-- A definition whose input name sanitizes to underscores only (takes the
`field_<n>` fallback). -/
def totalitySig : JVal :=
  .obj [("inputs", .arr [.obj [("name", .str "???")]]),
        ("outputs", .arr [.obj [("name", .str "out")]])]

/-- `create_program` arguments with the invalid signature
`{"inputs": [{"name": "???"}]}` (no outputs). -/
def invalidSigArgs : JVal :=
  .obj [("id", .str "p1"),
        ("signature", .obj [("inputs", .arr [.obj [("name", .str "???")]])])]

/-- The registry state after that creation, with an LM configured. -/
def c7St : Bridge :=
  { (createProgram cfgStd stStandalone invalidSigArgs).1 with lmConfigured := true }

/-- The record `create_program` stores for `invalidSigArgs` (legacy path,
fallback flag *not* set), after one successful execution. -/
def c7InfoAfter : ProgramInfo :=
  { program := some Program.legacyQA
    signatureClass := none
    signatureDef := some (JVal.obj
      [("inputs", JVal.arr [JVal.obj [("name", JVal.str "???")]])])
    fieldMapping := some []
    fallbackUsed := some false
    createdAt := 0
    executionCount := 1
    lastExecuted := some 0
    variableAware := some false }

/-- An oracle whose program invocations all return the given prediction. -/
def orOf (pred : Prediction) : Oracles :=
  ⟨fun _ => true, fun _ _ => .ok pred, fun _ => .ok (), fun _ => .ok "resp"⟩

/-- `c7St` after the execution statistics bump on `p1`. -/
def c7StAfter : Bridge :=
  { c7St with programs := dset c7St.programs (JVal.str "p1") c7InfoAfter }

/-- `execute_program` arguments for program `p1` with `{"question": "X"}`. -/
def questionXArgs : JVal :=
  .obj [("program_id", .str "p1"), ("inputs", .obj [("question", .str "X")])]

/-- A legacy program record for `p1` with 3 recorded executions. -/
def dupInfo : ProgramInfo :=
  { program := some Program.legacyQA, signatureClass := none,
    signatureDef := some (.obj []), fieldMapping := some [],
    fallbackUsed := some false, createdAt := 0, executionCount := 3,
    lastExecuted := some 2, variableAware := some false }

/-- A pool-worker bridge whose local (anonymous-session) storage already
holds `p1`. -/
def stPoolDup : Bridge :=
  { mode := .poolWorker, programs := [(.str "p1", dupInfo)] }

/-- A standalone bridge whose registry already holds `p1`. -/
def stSaDup : Bridge :=
  { mode := .standalone, programs := [(.str "p1", dupInfo)] }

/-- A second `create_program` for `p1` in the anonymous pooled session. -/
def dupArgs : JVal :=
  .obj [("id", .str "p1"), ("session_id", .str "anonymous"),
        ("signature", .obj [("inputs", .arr [.obj [("name", .str "q")]]),
                            ("outputs", .arr [.obj [("name", .str "a")]])])]

/-- A Gemini signature with the single output field `answer`. -/
def oneOutSig : JVal := .obj [("outputs", .arr [.obj [("name", .str "answer")]])]

/-- A decoder that decodes the byte `1` (`0x31`) to a `ping` envelope and
fails on everything else (a concrete stand-in for `json.loads` at the two
payloads of `streamBadGood`). -/
def decodePing : List Nat → Option JVal := fun bs =>
  if bs == [49] then
    some (.obj [("id", .num 1), ("command", .str "ping"), ("args", .obj [])])
  else none

/-- A `configure_lm` request with empty args (no `model`, no `api_key`). -/
def noModelMsg : JVal :=
  .obj [("id", .num 7), ("command", .str "configure_lm"), ("args", .obj [])]

/-- A well-formed `ping` request envelope with id 1. -/
def pingMsg : JVal :=
  .obj [("id", .num 1), ("command", .str "ping"), ("args", .obj [])]

/-- A malformed frame (payload `0x78`, which `decodePing` rejects)
followed by a well-formed `ping` frame. -/
def streamBadGood : List Nat := mkFrame [120] ++ mkFrame [49]

/-- A decoder that decodes nothing (a stand-in for `json.loads` on streams
whose payload bytes it is never given). -/
def decodeNone : List Nat → Option JVal := fun _ => none

theorem beq_null_iff (a : JVal) : (a == JVal.null) = true ↔ a = JVal.null := by
  show JVal.beq a JVal.null = true ↔ a = JVal.null
  cases a <;> simp [JVal.beq]

theorem alookup_dset_self [BEq κ] (m : List (κ × α)) (k : κ) (v : α)
    (hk : (k == k) = true) : alookup (dset m k v) k = some v := by
  induction m with
  | nil => simp [dset, alookup, hk]
  | cons x rest ih =>
    by_cases h : (x.1 == k) = true
    · simp [dset, alookup, h]
    · simp only [Bool.not_eq_true] at h
      simp [dset, alookup, h, ih]

theorem alookup_append_right [BEq κ] (m : List (κ × α)) (k : κ) (v : α)
    (h : alookup m k = none) (hk : (k == k) = true) :
    alookup (m ++ [(k, v)]) k = some v := by
  induction m with
  | nil => simp [alookup, hk]
  | cons x rest ih =>
    by_cases hx : (x.1 == k) = true
    · simp [alookup, hx] at h
    · simp only [Bool.not_eq_true] at hx
      simp only [alookup, hx] at h
      simp [alookup, hx, ih h]

theorem dset_all_values [BEq κ] (P : α → Bool) (m : List (κ × α)) (k : κ) (v : α)
    (hm : m.all (fun p => P p.2) = true) (hv : P v = true) :
    (dset m k v).all (fun p => P p.2) = true := by
  induction m with
  | nil => simp [dset, hv]
  | cons x rest ih =>
    simp only [List.all_cons, Bool.and_eq_true] at hm
    by_cases h : (x.1 == k) = true
    · simp [dset, h, hv, hm.2]
    · simp only [Bool.not_eq_true] at h
      simp [dset, h, hm.1, ih hm.2]

/-- C4 counterexample: a frame whose header declares 5 payload bytes but
whose stream ends after the header is reported by `read_message` exactly
as an end-of-stream at byte offset 0 — the same `None`, not a distinct
truncated-message error. -/
theorem truncated_read_reported_as_eof_cex :
    readMessage decodeNone [0, 0, 0, 5] = (none, []) ∧
    readMessage decodeNone [] = (none, []) := ⟨rfl, rfl⟩

/-- C4 (amended): `read_message` reports end-of-stream uniformly as `None`,
whether the stream ends at byte offset 0, inside the 4-byte header, or
after the header but before the declared payload length is reached; no
distinct truncated-message error exists. -/
theorem read_message_eof_uniform (decode : List Nat → Option JVal) (s : List Nat) :
    (s.length < 4 → readMessage decode s = (none, [])) ∧
    (4 ≤ s.length → (s.drop 4).length < beLen (s.take 4) →
      readMessage decode s = (none, [])) := by
  constructor
  · intro h
    simp [readMessage, h]
  · intro h4 hlen
    have hnot : ¬ s.length < 4 := Nat.not_lt.mpr h4
    have hlen' : s.length - 4 < beLen (s.take 4) := by simpa using hlen
    simp [readMessage, hnot, hlen']

theorem read_message_eof_uniform_witness :
    readMessage decodeNone [9] = (none, []) ∧
    readMessage decodeNone [0, 0, 0, 5] = (none, []) :=
  ⟨(read_message_eof_uniform decodeNone [9]).1 (by decide),
   (read_message_eof_uniform decodeNone [0, 0, 0, 5]).2 (by decide) (by decide)⟩

theorem findFieldLine_no_match (nm : String) (lines : List String)
    (h : ∀ l ∈ lines, pyStartsWith (pyLower l) (pyLower nm ++ ":") = false) :
    findFieldLine nm lines = "" := by
  induction lines with
  | nil => rfl
  | cons l rest ih =>
    have hl := h l (by simp)
    simp only [findFieldLine, hl, Bool.false_eq_true, if_false]
    exact ih (fun x hx => h x (by simp [hx]))

theorem findFieldLine_first (nm : String) (pre post : List String) (line : String)
    (hpre : ∀ l ∈ pre, pyStartsWith (pyLower l) (pyLower nm ++ ":") = false)
    (hline : pyStartsWith (pyLower line) (pyLower nm ++ ":") = true) :
    findFieldLine nm (pre ++ line :: post) = pyStrip (afterFirstColon line) := by
  induction pre with
  | nil => simp [findFieldLine, hline]
  | cons p rest ih =>
    have hp := hpre p (by simp)
    simp only [List.cons_append, findFieldLine, hp, Bool.false_eq_true, if_false]
    exact ih (fun x hx => hpre x (by simp [hx]))

/-- C10 counterexample: with the single output field `answer` and the raw
response `"answer:"`, a line *does* start with `answer:` yet the parser
assigns the entire stripped response (`"answer:"`), not the stripped text
after the first colon of that line (which is `""`, falsy, and so triggers
the single-output whole-response fallback). -/
theorem gemini_empty_value_whole_response_cex :
    parseGeminiResponse oneOutSig "answer:" = .ok [("answer", "answer:")] ∧
    parseGeminiResponse oneOutSig "answer:" ≠ .ok [("answer", "")] := by
  constructor
  · rfl
  · intro h
    rw [show parseGeminiResponse oneOutSig "answer:" =
      .ok [("answer", "answer:")] from rfl] at h
    simp at h

/-- C10 (amended): for a Gemini signature with exactly one output field,
when no line of the stripped response starts (case-insensitively) with
`<field_name>:` the whole stripped response becomes the field's value, and
when such a line exists the value is the stripped text after the first
colon of the first matching line — unless that stripped text is empty, in
which case the single-output whole-response fallback applies as well (see
the counterexample); the second part therefore requires the extracted
value to be non-empty. -/
theorem gemini_single_output_parse (sd f : JVal) (nm resp : String)
    (hout : jlist (pyGetD sd "outputs" (.arr [])) = [f])
    (hname : pyGet f "name" = .str nm) :
    ((∀ l ∈ pySplit (pyStrip resp) (Char.ofNat 10),
        pyStartsWith (pyLower l) (pyLower nm ++ ":") = false) →
      parseGeminiResponse sd resp = .ok [(nm, pyStrip resp)]) ∧
    (∀ pre line post w,
      pySplit (pyStrip resp) (Char.ofNat 10) = pre ++ line :: post →
      (∀ l ∈ pre, pyStartsWith (pyLower l) (pyLower nm ++ ":") = false) →
      pyStartsWith (pyLower line) (pyLower nm ++ ":") = true →
      pyStrip (afterFirstColon line) = w → w ≠ "" →
      parseGeminiResponse sd resp = .ok [(nm, w)]) := by
  constructor
  · intro hnone
    simp only [parseGeminiResponse, hout, List.length_cons, List.length_nil]
    have hv : findFieldLine nm (pySplit (pyStrip resp) (Char.ofNat 10)) = "" :=
      findFieldLine_no_match nm _ hnone
    simp [parseGeminiFields, hname, asStr, hv, dset]
  · intro pre line post w hsplit hpre hline hw hne
    simp only [parseGeminiResponse, hout, List.length_cons, List.length_nil]
    have hv : findFieldLine nm (pySplit (pyStrip resp) (Char.ofNat 10)) = w := by
      rw [hsplit, findFieldLine_first nm pre post line hpre hline, hw]
    have hwb : (w == "") = false := by simpa using hne
    simp [parseGeminiFields, hname, asStr, hv, hwb, dset]

theorem gemini_single_output_parse_witness :
    parseGeminiResponse oneOutSig "The answer is 4" =
      .ok [("answer", "The answer is 4")] ∧
    parseGeminiResponse oneOutSig "Answer: 42" = .ok [("answer", "42")] :=
  ⟨(gemini_single_output_parse oneOutSig (.obj [("name", .str "answer")])
      "answer" "The answer is 4" rfl rfl).1 (by decide),
   (gemini_single_output_parse oneOutSig (.obj [("name", .str "answer")])
      "answer" "Answer: 42" rfl rfl).2 [] "Answer: 42" [] "42"
      (by decide) (by simp) (by decide) (by decide) (by decide)⟩

/-- C5 counterexample: compiling `{"inputs": [a, b], "outputs": [c]}` and
then the same definition with the `inputs` *field list* reordered to
`[b, a]` misses the cache (the canonical serialization preserves list
order) and allocates a fresh class: the class identities differ (0 vs 1)
and a second compilation happened, contradicting "the very same cached
signature-class instance ... without recompiling". -/
theorem signature_cache_list_reorder_cex :
    clsIdxOf reorderStep1.1 = some 0 ∧ clsIdxOf reorderStep2.1 = some 1 ∧
    reorderStep2.2.nextClassId = 2 := ⟨rfl, rfl, rfl⟩

/-- C5 (amended): compiling two signature definitions whose canonical
sorted-key serializations coincide — which holds for reordering of
top-level (or any nested) object keys, but *not* for reordering of the
`inputs`/`outputs` field lists — returns the very same cached
`(signature class, field mapping)` pair the second time, with the cache
state unchanged (no recompilation, no fresh class identity). -/
theorem signature_cache_canonical_key (clock1 clock2 : Nat) (sc : SigCache)
    (d1 d2 : JVal) (v : SigClass × FieldMapping)
    (hkey : sortKeys d1 = sortKeys d2)
    (h1 : (getOrCreateSignatureClass clock1 sc d1).1 = .ok v) :
    getOrCreateSignatureClass clock2 (getOrCreateSignatureClass clock1 sc d1).2 d2 =
      (.ok v, (getOrCreateSignatureClass clock1 sc d1).2) := by
  simp only [getOrCreateSignatureClass, ← hkey] at h1 ⊢
  cases hc : alookup sc.cache (sortKeys d1) with
  | some w =>
    simp only [hc] at h1 ⊢
    cases h1
    rfl
  | none =>
    simp only [hc] at h1 ⊢
    cases hcr : createSignatureClass clock1 d1 with
    | error e => simp [hcr] at h1
    | ok t =>
      obtain ⟨name, attrs, fm⟩ := t
      simp only [hcr] at h1 ⊢
      rw [alookup_append_right sc.cache (sortKeys d1) _ hc (JVal.beq_refl _)]
      cases h1
      rfl

theorem signature_cache_canonical_key_witness :
    getOrCreateSignatureClass 5 reorderStep1.2 reorderDefC =
      (.ok reorderCompiled, reorderStep1.2) :=
  signature_cache_canonical_key 0 5 ⟨[], 0⟩ reorderDefA reorderDefC
    reorderCompiled rfl rfl

theorem field_counter_name_ne_empty (s : String) : ("field_" ++ s) ≠ "" := by
  intro h
  have hd : ("field_" ++ s).data = "".data := congrArg String.data h
  rw [String.data_append] at hd
  simp at hd

theorem bne_empty_of_ne (s : String) (h : s ≠ "") : (s != "") = true := by
  simp [bne, h]

theorem addField_values_nonempty (b : Bool) (acc : List (String × FieldAttr) × FieldMapping)
    (f : JVal) (acc' : List (String × FieldAttr) × FieldMapping)
    (hacc : acc.2.all (fun pr => pr.2 != "") = true)
    (h : addField b acc f = .ok acc') :
    acc'.2.all (fun pr => pr.2 != "") = true := by
  obtain ⟨attrs, fm⟩ := acc
  have haccf : fm.all (fun pr => pr.2 != "") = true := hacc
  simp only [addField] at h
  by_cases ht : jtruthy (pyGet f "name") = true
  · rw [if_pos ht] at h
    cases hs : asStr (pyGet f "name") with
    | none => simp only [hs] at h; simp at h
    | some rawName =>
      simp only [hs] at h
      by_cases hg : (reSubW rawName == "" || pyStartsWith (reSubW rawName) "_") = true
      · rw [if_pos hg] at h
        cases h
        exact dset_all_values (fun s => s != "") fm rawName _ haccf
          (bne_empty_of_ne _ (field_counter_name_ne_empty _))
      · rw [if_neg hg] at h
        cases h
        have hor : (reSubW rawName == "" || pyStartsWith (reSubW rawName) "_") = false := by
          simpa using hg
        have hne : (reSubW rawName == "") = false :=
          (Bool.or_eq_false_iff.mp hor).1
        exact dset_all_values (fun s => s != "") fm rawName _ haccf (by simp [bne, hne])
  · rw [if_neg ht] at h
    cases h
    exact hacc

theorem addFields_values_nonempty (b : Bool) (fields : List JVal) :
    ∀ acc acc' : List (String × FieldAttr) × FieldMapping,
    acc.2.all (fun pr => pr.2 != "") = true →
    addFields b fields acc = .ok acc' →
    acc'.2.all (fun pr => pr.2 != "") = true := by
  induction fields with
  | nil =>
    intro acc acc' hacc h
    simp only [addFields] at h
    cases h
    exact hacc
  | cons f rest ih =>
    intro acc acc' hacc h
    simp only [addFields, bind, Except.bind] at h
    cases haf : addField b acc f with
    | error e => rw [haf] at h; simp at h
    | ok acc1 =>
      rw [haf] at h
      exact ih acc1 acc' (addField_values_nonempty b acc f acc1 hacc haf) h

/-- C6 counterexample: in the definition with inputs `a?` and `a!`, two
*distinct* original field names map to the *same* sanitized name `a_` —
the `field_<n>` fallback fires only on empty or underscore-prefixed
results, not on this collision — refuting the claimed injectivity. -/
theorem sanitization_collision_cex :
    alookup (fmOf (createSignatureClass 0 collisionDef)) "a?" = some "a_" ∧
    alookup (fmOf (createSignatureClass 0 collisionDef)) "a!" = some "a_" := ⟨rfl, rfl⟩

/-- C6 (amended): field-name sanitization is total — every sanitized name
recorded in the field mapping of a successful compilation is non-empty
(names sanitizing to empty or underscore-prefixed strings receive a
non-empty `field_<n>` fallback from the shared counter) — but it is *not*
injective: two distinct original names whose sanitized forms coincide
without being empty or underscore-prefixed collide (see the
counterexample). -/
theorem sanitization_total (clock : Nat) (sd : JVal)
    (t : String × List (String × FieldAttr) × FieldMapping)
    (h : createSignatureClass clock sd = .ok t) :
    t.2.2.all (fun pr => pr.2 != "") = true := by
  cases sd with
  | obj kvs =>
    simp only [createSignatureClass, bind, Except.bind] at h
    by_cases h1 : (!jtruthy (pyGetD (JVal.obj kvs) "inputs" (JVal.arr []))) = true
    · rw [if_pos h1] at h; simp at h
    · rw [if_neg h1] at h
      by_cases h2 : (!jtruthy (pyGetD (JVal.obj kvs) "outputs" (JVal.arr []))) = true
      · rw [if_pos h2] at h; simp at h
      · rw [if_neg h2] at h
        cases hin : asList (pyGetD (JVal.obj kvs) "inputs" (JVal.arr [])) with
        | none => simp only [hin] at h; simp at h
        | some inputs =>
          cases hout : asList (pyGetD (JVal.obj kvs) "outputs" (JVal.arr [])) with
          | none => simp only [hin, hout] at h; simp at h
          | some outputs =>
            simp only [hin, hout] at h
            cases hv1 : validateFieldList "input" 0 inputs with
            | error e => simp only [hv1] at h; simp at h
            | ok u1 =>
              simp only [hv1] at h
              cases hv2 : validateFieldList "output" 0 outputs with
              | error e => simp only [hv2] at h; simp at h
              | ok u2 =>
                simp only [hv2] at h
                cases hnm : pyGetD (JVal.obj kvs) "name" (JVal.str "DynamicSignature") with
                | null => simp only [hnm] at h; simp at h
                | b v => simp only [hnm] at h; simp at h
                | num v => simp only [hnm] at h; simp at h
                | arr xs => simp only [hnm] at h; simp at h
                | obj kvs2 => simp only [hnm] at h; simp at h
                | str rawClassName =>
                  simp only [hnm] at h
                  cases ha1 : addFields true inputs
                      ([("__doc__", FieldAttr.doc (pyGetD (JVal.obj kvs) "description"
                          (JVal.str "A dynamically generated DSPy signature.")))], []) with
                  | error e => simp only [ha1] at h; simp at h
                  | ok acc1 =>
                    simp only [ha1] at h
                    cases ha2 : addFields false outputs acc1 with
                    | error e => simp only [ha2] at h; simp at h
                    | ok acc2 =>
                      simp only [ha2] at h
                      by_cases hc1 : (countInFields acc2.1 == 0) = true
                      · rw [if_pos hc1] at h; simp at h
                      · rw [if_neg hc1] at h
                        by_cases hc2 : (countOutFields acc2.1 == 0) = true
                        · rw [if_pos hc2] at h; simp at h
                        · rw [if_neg hc2] at h
                          cases h
                          exact addFields_values_nonempty false outputs acc1 acc2
                            (addFields_values_nonempty true inputs _ acc1 (by simp) ha1) ha2
  | null => simp [createSignatureClass] at h
  | b v => simp [createSignatureClass] at h
  | num v => simp [createSignatureClass] at h
  | str s => simp [createSignatureClass] at h
  | arr xs => simp [createSignatureClass] at h

theorem sanitization_total_witness :
    ([("???", "field_0"), ("out", "out")] : FieldMapping).all
      (fun pr => pr.2 != "") = true :=
  sanitization_total 0 totalitySig
    ("DynamicSignature",
     [("__doc__", FieldAttr.doc (.str "A dynamically generated DSPy signature.")),
      ("field_0", FieldAttr.infield (.str "Input field: ???")),
      ("out", FieldAttr.outfield (.str "Output field: out"))],
     [("???", "field_0"), ("out", "out")]) rfl

/-- C1: every decoded inbound envelope whose `id` and `command` are both
non-null is answered by the loop body with exactly one outbound envelope
carrying that same `id` — a success envelope with a `result` when the
handler returns, a failure envelope with an `error` when it raises; no
such request is skipped, answered twice, or crashes the loop. -/
theorem main_loop_replies_exactly_once
    (cfg : BridgeConfig) (or : Oracles) (st : Bridge) (msg i c : JVal)
    (hid : pyGet msg "id" = i) (hin : i ≠ JVal.null)
    (hc : pyGet msg "command" = c) (hcn : c ≠ JVal.null) :
    ∃ e : OutEnv, (mainStep cfg or st msg).2 = StepOut.reply e ∧ e.id = i ∧
      ((∃ d, e.success = true ∧ e.result = some d ∧ e.error = none) ∨
       (∃ err, e.success = false ∧ e.error = some err ∧ e.result = none)) := by
  have hidb : (i == JVal.null) = false := by
    rcases hb : (i == JVal.null) with _ | _
    · rfl
    · exact absurd ((beq_null_iff i).mp hb) hin
  have hcb : (c == JVal.null) = false := by
    rcases hb : (c == JVal.null) with _ | _
    · rfl
    · exact absurd ((beq_null_iff c).mp hb) hcn
  cases msg with
  | obj kvs =>
    simp only [mainStep, hid, hc, hidb, hcb, Bool.or_self, Bool.false_eq_true, if_false]
    rcases hhc : handleCommand cfg or { st with clock := st.clock + 1 } c
      (pyGetD (JVal.obj kvs) "args" (JVal.obj [])) with ⟨st2, r⟩
    cases r with
    | ok d =>
      exact ⟨⟨i, true, some d, none, st2.clock⟩, rfl, rfl, Or.inl ⟨d, rfl, rfl, rfl⟩⟩
    | error err =>
      exact ⟨⟨i, false, none, some err, st2.clock⟩, rfl, rfl, Or.inr ⟨err, rfl, rfl, rfl⟩⟩
  | null => exact absurd hid.symm hin
  | b v => exact absurd hid.symm hin
  | num v => exact absurd hid.symm hin
  | str s => exact absurd hid.symm hin
  | arr xs => exact absurd hid.symm hin

theorem main_loop_replies_exactly_once_witness :
    ∃ e : OutEnv, (mainStep cfgStd orAnswer stStandalone pingMsg).2 = StepOut.reply e ∧
      e.id = JVal.num 1 ∧
      ((∃ d, e.success = true ∧ e.result = some d ∧ e.error = none) ∨
       (∃ err, e.success = false ∧ e.error = some err ∧ e.result = none)) :=
  main_loop_replies_exactly_once cfgStd orAnswer stStandalone pingMsg
    (JVal.num 1) (JVal.str "ping") rfl (by simp) rfl (by simp)

theorem configureLm_no_model (or : Oracles) (st : Bridge) (args : JVal)
    (hm : jtruthy (pyGet args "model") = false) :
    configureLm or st args =
      ({ st with errorCount := st.errorCount + 1 },
       .ok [("error", .s "Model name is required")]) := by
  have hinner : configureLmInner or st args = .error "Model name is required" := by
    simp only [configureLmInner]
    have hb : (!jtruthy (pyGet args "model")) = true := by rw [hm]; rfl
    rw [if_pos hb]
  simp only [configureLm, hinner]

theorem createProgram_no_id (cfg : BridgeConfig) (st : Bridge) (args : JVal)
    (hd : cfg.dspyAvailable = true)
    (hid : jtruthy (pyGet args "id") = false) :
    createProgram cfg st args = (st, .error "Program ID is required") := by
  simp only [createProgram, hd, Bool.not_true, Bool.false_eq_true, if_false, hid,
    Bool.not_false, if_true]

/-- C2 counterexample: `configure_lm` with no `model` argument: the
validation error *is* counted in `error_count`, but the handler catches it
and returns `{"error": ...}` normally, so the main loop answers with a
*success* envelope (`success: true`), not the failed envelope the claim
prescribes. -/
theorem configure_lm_validation_in_success_envelope_cex :
    (mainStep cfgStd orAnswer stStandalone noModelMsg).2 =
      StepOut.reply ⟨JVal.num 7, true,
        some [("error", RVal.s "Model name is required")], none, 1⟩ ∧
    (mainStep cfgStd orAnswer stStandalone noModelMsg).1.errorCount = 1 := ⟨rfl, rfl⟩

/-- C2 (amended): a missing required argument increments the error counter
either way, but the envelope shape depends on the handler: `configure_lm`
catches its own validation error and answers with a *success* envelope
whose result carries the error message, while handlers that raise (e.g.
`create_program` without an id) produce a failed envelope with the
descriptive message. -/
theorem validation_error_surfacing
    (cfg : BridgeConfig) (or : Oracles) (st : Bridge) (i args i2 args2 : JVal)
    (hin : i ≠ JVal.null) (hin2 : i2 ≠ JVal.null) :
    (jtruthy (pyGet args "model") = false →
      mainStep cfg or st
          (.obj [("id", i), ("command", .str "configure_lm"), ("args", args)]) =
        ({ st with
            clock := st.clock + 1
            commandCount := st.commandCount + 1
            errorCount := st.errorCount + 1 },
         StepOut.reply ⟨i, true,
           some [("error", RVal.s "Model name is required")], none, st.clock + 1⟩)) ∧
    (cfg.dspyAvailable = true → jtruthy (pyGet args2 "id") = false →
      mainStep cfg or st
          (.obj [("id", i2), ("command", .str "create_program"), ("args", args2)]) =
        ({ st with
            clock := st.clock + 1
            commandCount := st.commandCount + 1
            errorCount := st.errorCount + 1 },
         StepOut.reply ⟨i2, false, none, some "Program ID is required",
           st.clock + 1⟩)) := by
  have hidb : (i == JVal.null) = false := by
    rcases hb : (i == JVal.null) with _ | _
    · rfl
    · exact absurd ((beq_null_iff i).mp hb) hin
  have hidb2 : (i2 == JVal.null) = false := by
    rcases hb : (i2 == JVal.null) with _ | _
    · rfl
    · exact absurd ((beq_null_iff i2).mp hb) hin2
  constructor
  · intro hm
    have hkey : mainStep cfg or st
        (.obj [("id", i), ("command", .str "configure_lm"), ("args", args)]) =
        (if (i == JVal.null || JVal.str "configure_lm" == JVal.null) = true
         then (st, StepOut.skip)
         else
          match handleCommand cfg or { st with clock := st.clock + 1 }
              (JVal.str "configure_lm") args with
          | (st2, .ok d) => (st2, StepOut.reply ⟨i, true, some d, none, st2.clock⟩)
          | (st2, .error e) =>
            (st2, StepOut.reply ⟨i, false, none, some e, st2.clock⟩)) := rfl
    rw [hkey]
    have hg : (i == JVal.null || JVal.str "configure_lm" == JVal.null) = false := by
      rw [show (JVal.str "configure_lm" == JVal.null) = false from rfl, hidb]
      rfl
    rw [if_neg (by simp [hg])]
    have hkey2 : handleCommand cfg or { st with clock := st.clock + 1 }
        (JVal.str "configure_lm") args =
        (match configureLm or
            { st with
                clock := st.clock + 1
                commandCount := st.commandCount + 1 }
            args with
          | (st1, .ok d) => (st1, Except.ok d)
          | (st1, .error e) =>
            ({ st1 with errorCount := st1.errorCount + 1 }, Except.error e)) := rfl
    rw [hkey2, configureLm_no_model or _ args hm]
  · intro hd hid
    have hkey : mainStep cfg or st
        (.obj [("id", i2), ("command", .str "create_program"), ("args", args2)]) =
        (if (i2 == JVal.null || JVal.str "create_program" == JVal.null) = true
         then (st, StepOut.skip)
         else
          match handleCommand cfg or { st with clock := st.clock + 1 }
              (JVal.str "create_program") args2 with
          | (st2, .ok d) => (st2, StepOut.reply ⟨i2, true, some d, none, st2.clock⟩)
          | (st2, .error e) =>
            (st2, StepOut.reply ⟨i2, false, none, some e, st2.clock⟩)) := rfl
    rw [hkey]
    have hg : (i2 == JVal.null || JVal.str "create_program" == JVal.null) = false := by
      rw [show (JVal.str "create_program" == JVal.null) = false from rfl, hidb2]
      rfl
    rw [if_neg (by simp [hg])]
    have hkey2 : handleCommand cfg or { st with clock := st.clock + 1 }
        (JVal.str "create_program") args2 =
        (match createProgram cfg
            { st with
                clock := st.clock + 1
                commandCount := st.commandCount + 1 }
            args2 with
          | (st1, .ok d) => (st1, Except.ok d)
          | (st1, .error e) =>
            ({ st1 with errorCount := st1.errorCount + 1 }, Except.error e)) := rfl
    rw [hkey2, createProgram_no_id cfg _ args2 hd hid]

theorem validation_error_surfacing_witness :
    mainStep cfgStd orAnswer stStandalone noModelMsg =
      ({ stStandalone with clock := 1, commandCount := 1, errorCount := 1 },
       StepOut.reply ⟨JVal.num 7, true,
         some [("error", RVal.s "Model name is required")], none, 1⟩) ∧
    mainStep cfgStd orAnswer stStandalone
        (.obj [("id", .num 8), ("command", .str "create_program"),
               ("args", .obj [])]) =
      ({ stStandalone with clock := 1, commandCount := 1, errorCount := 1 },
       StepOut.reply ⟨JVal.num 8, false, none, some "Program ID is required", 1⟩) :=
  ⟨(validation_error_surfacing cfgStd orAnswer stStandalone (JVal.num 7) (.obj [])
      (JVal.num 8) (.obj []) (by simp) (by simp)).1 rfl,
   (validation_error_surfacing cfgStd orAnswer stStandalone (JVal.num 7) (.obj [])
      (JVal.num 8) (.obj []) (by simp) (by simp)).2 rfl rfl⟩

theorem beLen_encodeLen (n : Nat) (h : n < 4294967296) : beLen (encodeLen n) = n := by
  simp only [beLen, encodeLen]
  omega

theorem readMessage_mkFrame (decode : List Nat → Option JVal) (p rest : List Nat)
    (h : p.length < 4294967296) :
    readMessage decode (mkFrame p ++ rest) = (decode p, rest) := by
  have hlen4 : (encodeLen p.length).length = 4 := rfl
  simp only [readMessage, mkFrame, List.append_assoc]
  have hnl : ¬ (encodeLen p.length ++ (p ++ rest)).length < 4 := by
    simp [List.length_append, hlen4]
  rw [if_neg hnl]
  have ht : (encodeLen p.length ++ (p ++ rest)).take 4 = encodeLen p.length := by
    rw [show (4 : Nat) = (encodeLen p.length).length from rfl]
    exact List.take_left _ _
  have hd : (encodeLen p.length ++ (p ++ rest)).drop 4 = p ++ rest := by
    rw [show (4 : Nat) = (encodeLen p.length).length from rfl]
    exact List.drop_left _ _
  rw [ht, hd, beLen_encodeLen _ h]
  have hnp : ¬ (p ++ rest).length < p.length := by
    simp [List.length_append]
  rw [if_neg hnp]
  rw [List.take_left, List.drop_left]
  cases hdec : decode p <;> simp [hdec]

/-- C3 counterexample: a malformed frame followed by a well-formed `ping`
frame.  In standalone mode the decode failure is reported as `None`, which
`main` treats as end-of-stream: the loop *breaks* and the engine
terminates, never answering the well-formed frame (no outbound envelopes
at all) — the same stream in pool-worker mode yields the one `ping`
reply. -/
theorem standalone_decode_failure_terminates_cex :
    (runMain cfgStd orAnswer decodePing stStandalone streamBadGood).2 = [] ∧
    (runMain cfgStd orAnswer decodePing stPool streamBadGood).2.map
      (fun e => (e.id, e.success)) = [(JVal.num 1, true)] := ⟨rfl, rfl⟩

/-- C3 (amended): a frame whose payload fails to decode never raises out
of `read_message` (the exception is caught and reported as `None`); in
pool-worker mode the main loop then *continues* with the rest of the
stream, unchanged; in standalone mode, however, the `None` is
indistinguishable from end-of-stream and the loop exits (see the
counterexample). -/
theorem pool_worker_survives_decode_failure (cfg : BridgeConfig) (or : Oracles)
    (decode : List Nat → Option JVal) (fuel : Nat) (st : Bridge)
    (p rest : List Nat) (hmode : st.mode = .poolWorker)
    (hdec : decode p = none) (hlen : p.length < 4294967296) :
    runLoopFuel cfg or decode (fuel + 1) st (mkFrame p ++ rest) =
      runLoopFuel cfg or decode fuel st rest := by
  have hne : (mkFrame p ++ rest).isEmpty = false := by
    simp [mkFrame, encodeLen]
  simp only [runLoopFuel, hne, Bool.false_eq_true, if_false,
    readMessage_mkFrame decode p rest hlen, hdec, hmode]

theorem pool_worker_survives_decode_failure_witness :
    runLoopFuel cfgStd orAnswer decodePing 2 stPool (mkFrame [120] ++ mkFrame [49]) =
      runLoopFuel cfgStd orAnswer decodePing 1 stPool (mkFrame [49]) :=
  pool_worker_survives_decode_failure cfgStd orAnswer decodePing 1 stPool
    [120] (mkFrame [49]) rfl rfl (by decide)

/-- C9 counterexample: in pool-worker mode the anonymous session routes to
local storage, yet `create_program` performs *no* duplicate check there: a
second creation of `p1`, whose record (3 executions) is already present,
succeeds with `status: created` and silently overwrites the record
(execution count reset to 0) instead of failing with a duplicate-program
error. -/
theorem pool_anonymous_duplicate_create_cex :
    resLookup (createProgram cfgStd stPoolDup dupArgs).2 "status" =
      some (RVal.s "created") ∧
    countOf (createProgram cfgStd stPoolDup dupArgs).1 (.str "p1") = 0 := ⟨rfl, rfl⟩

/-- C9 (amended): the duplicate check exists only in standalone mode: a
`create_program` whose truthy id is already in the local registry fails
with the duplicate-program error and returns the state *unchanged* (the
registry still holds exactly the one record from the first creation); in
pool-worker mode the check is skipped and an anonymous-session duplicate
overwrites (see the counterexample). -/
theorem standalone_duplicate_create_rejected (cfg : BridgeConfig) (st : Bridge)
    (args pid : JVal) (info : ProgramInfo)
    (hmode : st.mode = .standalone) (hpid : pyGet args "id" = pid)
    (ht : jtruthy pid = true) (hdup : alookup st.programs pid = some info)
    (hdspy : cfg.dspyAvailable = true) :
    createProgram cfg st args =
      (st, .error ("Program with ID " ++ sQuote ++ pyStr pid ++ sQuote ++
        " already exists")) := by
  simp only [createProgram, hdspy, Bool.not_true, Bool.false_eq_true, if_false, hpid]
  rw [if_neg (by simp [ht])]
  simp only [hmode, hdup, Option.isSome_some, if_true]

theorem standalone_duplicate_create_rejected_witness :
    createProgram cfgStd stSaDup dupArgs =
      (stSaDup, .error ("Program with ID " ++ sQuote ++ "p1" ++ sQuote ++
        " already exists")) :=
  standalone_duplicate_create_rejected cfgStd stSaDup dupArgs (.str "p1") dupInfo
    rfl rfl rfl rfl rfl

/-- C7 counterexample: for the invalid definition
`{"inputs": [{"name": "???"}]}` (no outputs), `create_program` succeeds
with `status: "created"` but reports `fallback_used: false`, not `true`:
the missing `outputs` fails the dynamic-path precondition, so the legacy
path is taken *without* setting the fallback flag (which is set only when
the dynamic path is attempted and compilation raises). -/
theorem fallback_flag_not_set_cex :
    resLookup (createProgram cfgStd stStandalone invalidSigArgs).2 "fallback_used" =
      some (RVal.b false) ∧
    resLookup (createProgram cfgStd stStandalone invalidSigArgs).2 "status" =
      some (RVal.s "created") := ⟨rfl, rfl⟩

/-- C7 (amended): for the invalid definition `{"inputs": [{"name":
"???"}]}` with no outputs, `create_program` still succeeds with
`status: "created"`, but via the legacy path with `fallback_used = false`
(not `true` as claimed); a subsequent `execute_program` with
`{"question": "X"}` on that program performs the legacy Q&A execution and
returns an `answer` output (whatever answer attribute the prediction
carries). -/
theorem invalid_outputs_create_legacy_execute (pred : Prediction) (ans : JVal)
    (hans : alookup pred.attrs "answer" = some ans) :
    resLookup (createProgram cfgStd stStandalone invalidSigArgs).2 "status" =
      some (RVal.s "created") ∧
    resLookup (createProgram cfgStd stStandalone invalidSigArgs).2 "fallback_used" =
      some (RVal.b false) ∧
    resLookup (executeProgram cfgStd (orOf pred) c7St questionXArgs).2 "outputs" =
      some (RVal.j (.obj [("answer", ans)])) := by
  refine ⟨rfl, rfl, ?_⟩
  have hex : extractOutputs false []
      (JVal.obj [("inputs", JVal.arr [JVal.obj [("name", JVal.str "???")]])]) pred =
      .ok [("answer", ans)] := by
    simp only [extractOutputs, Bool.false_eq_true, if_false, extractLegacy, hans,
      finalizeOutputs, bind, Except.bind, pure, Except.pure, List.isEmpty_cons]
  have hkey : executeProgram cfgStd (orOf pred) c7St questionXArgs =
      (match extractOutputs false []
          (JVal.obj [("inputs", JVal.arr [JVal.obj [("name", JVal.str "???")]])]) pred with
        | Except.error e =>
          (c7StAfter, Except.error ("Program execution failed: " ++ e))
        | Except.ok outputs =>
          (c7StAfter,
           Except.ok [("program_id", RVal.j (JVal.str "p1")),
                      ("outputs", RVal.j (JVal.obj outputs)),
                      ("execution_time", RVal.n 0)])) := rfl
  rw [hkey, hex]
  rfl

theorem invalid_outputs_create_legacy_execute_witness :
    resLookup (createProgram cfgStd stStandalone invalidSigArgs).2 "status" =
      some (RVal.s "created") ∧
    resLookup (createProgram cfgStd stStandalone invalidSigArgs).2 "fallback_used" =
      some (RVal.b false) ∧
    resLookup (executeProgram cfgStd (orOf ⟨[("answer", .str "four")], "pred"⟩)
        c7St questionXArgs).2 "outputs" =
      some (RVal.j (.obj [("answer", .str "four")])) :=
  invalid_outputs_create_legacy_execute ⟨[("answer", .str "four")], "pred"⟩
    (.str "four") rfl

theorem configureLmInner_ok_frame (or : Oracles) (st : Bridge) (args : JVal)
    (st1 : Bridge) (d : RDict) (h : configureLmInner or st args = .ok (st1, d)) :
    st1.programs = st.programs ∧ st1.mode = st.mode ∧ st1.clock = st.clock := by
  simp only [configureLmInner] at h
  by_cases h1 : (!jtruthy (pyGet args "model")) = true
  · rw [if_pos h1] at h; simp at h
  · rw [if_neg h1] at h
    by_cases h2 : (!jtruthy (pyGet args "api_key")) = true
    · rw [if_pos h2] at h; simp at h
    · rw [if_neg h2] at h
      cases hp : (pyGetD args "provider" (.str "google") == JVal.str "google") with
      | false =>
        cases hm : asStr (pyGet args "model") <;> simp only [hp, hm] at h <;> simp at h
      | true =>
        cases hm : asStr (pyGet args "model") with
        | none => simp only [hp, hm] at h; simp at h
        | some m =>
          simp only [hp, hm] at h
          by_cases hg : pyStartsWith m "gemini" = true
          · rw [if_pos hg] at h
            by_cases ha : (or.lmAttempt
                (if pyContains m (Char.ofNat 47) then m else "gemini/" ++ m) ||
                or.lmAttempt m || or.lmAttempt ("google/" ++ m)) = true
            · rw [if_pos ha] at h
              cases h
              exact ⟨rfl, rfl, rfl⟩
            · rw [if_neg ha] at h; simp at h
          · rw [if_neg hg] at h; simp at h

theorem configureLm_frame (or : Oracles) (st : Bridge) (args : JVal) :
    (configureLm or st args).1.programs = st.programs ∧
    (configureLm or st args).1.mode = st.mode ∧
    (configureLm or st args).1.clock = st.clock := by
  simp only [configureLm]
  cases hc : configureLmInner or st args with
  | error e => exact ⟨rfl, rfl, rfl⟩
  | ok p =>
    obtain ⟨st1, d⟩ := p
    exact configureLmInner_ok_frame or st args st1 d hc

theorem recreate_frame (cfg : BridgeConfig) (st : Bridge) (pd : JVal) :
    (recreateProgramFromData cfg st pd).1.programs = st.programs ∧
    (recreateProgramFromData cfg st pd).1.mode = st.mode ∧
    (recreateProgramFromData cfg st pd).1.clock = st.clock := by
  refine ⟨?_, ?_, ?_⟩ <;> simp only [recreateProgramFromData] <;>
    (repeat' split) <;> rfl

theorem ensureLm_frame (cfg : BridgeConfig) (or : Oracles) (st1 : Bridge) :
    (ensureLm cfg or st1).1.programs = st1.programs ∧
    (ensureLm cfg or st1).1.mode = st1.mode ∧
    (ensureLm cfg or st1).1.clock = st1.clock := by
  simp only [ensureLm]
  by_cases hlm : (!st1.lmConfigured) = true
  · rw [if_pos hlm]
    cases hk : cfg.envGeminiKey with
    | none => exact ⟨rfl, rfl, rfl⟩
    | some k => exact configureLm_frame or st1 _
  · rw [if_neg hlm]
    exact ⟨rfl, rfl, rfl⟩

theorem executeProgramRun_ok_shape (or : Oracles) (st2 : Bridge) (pid inputs : JVal)
    (info : ProgramInfo) (program : Program) (st' : Bridge) (r : RDict)
    (h : executeProgramRun or st2 pid inputs info true program = (st', Except.ok r)) :
    st'.programs = dset st2.programs pid (bumpExec info st2.clock) ∧
    st'.mode = st2.mode := by
  simp only [executeProgramRun] at h
  cases hinv : invokeProgram or inputs info program with
  | error e => simp only [hinv] at h; simp at h
  | ok result =>
    simp only [hinv, if_true] at h
    cases hext : extractOutputs
        (info.signatureClass.isSome && !info.fallbackUsed.getD false)
        (info.fieldMapping.getD [])
        (match info.signatureDef with
          | some v => v
          | none => info.signature.getD (JVal.obj [])) result with
    | error e => simp only [hext] at h; simp at h
    | ok outputs =>
      simp only [hext] at h
      cases h
      exact ⟨rfl, rfl⟩

theorem invokeProgram_fail (or : Oracles)
    (hfail : ∀ p i, ∃ m, or.predictRun p i = Except.error m)
    (inputs : JVal) (info : ProgramInfo) (program : Program) :
    ∃ m, invokeProgram or inputs info program = .error m := by
  simp only [invokeProgram]
  repeat' split
  all_goals exact hfail _ _

theorem executeProgramRun_fail_frame (or : Oracles) (st2 : Bridge)
    (pid inputs : JVal) (info : ProgramInfo) (fromLocal : Bool) (program : Program)
    (hfail : ∀ p i, ∃ m, or.predictRun p i = Except.error m) :
    (executeProgramRun or st2 pid inputs info fromLocal program).1 = st2 := by
  obtain ⟨m, hm⟩ := invokeProgram_fail or hfail inputs info program
  simp only [executeProgramRun, hm]

theorem executeProgram_success_count (cfg : BridgeConfig) (or : Oracles)
    (st : Bridge) (a pid : JVal) (st' : Bridge) (r : RDict)
    (hmode : st.mode = .standalone) (hpid : pyGet a "program_id" = pid)
    (hexec : executeProgram cfg or st a = (st', Except.ok r)) :
    countOf st' pid = countOf st pid + 1 ∧ st'.mode = .standalone := by
  simp only [executeProgram, hpid] at hexec
  by_cases ht : (!jtruthy pid) = true
  · rw [if_pos ht] at hexec
    simp at hexec
  · rw [if_neg ht] at hexec
    simp only [hmode] at hexec
    cases hlk : alookup st.programs pid with
    | none => simp only [hlk] at hexec; simp at hexec
    | some info =>
      simp only [hlk] at hexec
      cases hprog : info.program with
      | none => simp only [hprog] at hexec; simp at hexec
      | some program =>
        simp only [hprog] at hexec
        rcases hlm : ensureLm cfg or st with ⟨st2, e | uu⟩
        · simp only [hlm] at hexec
          simp at hexec
        · have hfr := ensureLm_frame cfg or st
          rw [hlm] at hfr
          have hfr1 : st2.programs = st.programs := hfr.1
          have hfrm : st2.mode = st.mode := hfr.2.1
          simp only [hlm] at hexec
          have hsh := executeProgramRun_ok_shape or st2 pid
            (pyGetD a "inputs" (JVal.obj [])) info program st' r hexec
          constructor
          · simp only [countOf, hsh.1, hfr1,
              alookup_dset_self st.programs pid _ (JVal.beq_refl pid), hlk, bumpExec]
          · rw [hsh.2, hfrm, hmode]

theorem executeProgram_fail_frame (cfg : BridgeConfig) (or : Oracles)
    (st : Bridge) (a : JVal)
    (hfail : ∀ p i, ∃ m, or.predictRun p i = Except.error m) :
    (executeProgram cfg or st a).1.programs = st.programs := by
  simp only [executeProgram]
  by_cases ht : (!jtruthy (pyGet a "program_id")) = true
  · rw [if_pos ht]
  · rw [if_neg ht]
    cases hm : st.mode with
    | poolWorker =>
      by_cases hpd : (pyGet a "program_data" != JVal.null) = true
      · rw [if_pos hpd]
        rcases hrec : recreateProgramFromData cfg st (pyGet a "program_data")
          with ⟨st1, e | info⟩
        · have hfr := recreate_frame cfg st (pyGet a "program_data")
          rw [hrec] at hfr
          simp only [hrec]
          exact hfr.1
        · have hfr := recreate_frame cfg st (pyGet a "program_data")
          rw [hrec] at hfr
          have hfr1 : st1.programs = st.programs := hfr.1
          simp only [hrec]
          cases hprog : info.program with
          | none => exact hfr1
          | some program =>
            rcases hlm : ensureLm cfg or st1 with ⟨st2, e | uu⟩
            · have hfr2 := ensureLm_frame cfg or st1
              rw [hlm] at hfr2
              have hfr21 : st2.programs = st1.programs := hfr2.1
              simp only [hlm]
              exact hfr21.trans hfr1
            · have hfr2 := ensureLm_frame cfg or st1
              rw [hlm] at hfr2
              have hfr21 : st2.programs = st1.programs := hfr2.1
              simp only [hlm]
              rw [executeProgramRun_fail_frame or st2 _ _ info false program hfail]
              exact hfr21.trans hfr1
      · rw [if_neg hpd]
        cases hlk : alookup st.programs (pyGet a "program_id") with
        | none => simp only [hlk]
        | some info =>
          simp only [hlk]
          cases hprog : info.program with
          | none => rfl
          | some program =>
            rcases hlm : ensureLm cfg or st with ⟨st2, e | uu⟩
            · have hfr2 := ensureLm_frame cfg or st
              rw [hlm] at hfr2
              simp only [hlm]
              exact hfr2.1
            · have hfr2 := ensureLm_frame cfg or st
              rw [hlm] at hfr2
              have hfr21 : st2.programs = st.programs := hfr2.1
              simp only [hlm]
              rw [executeProgramRun_fail_frame or st2 _ _ info true program hfail]
              exact hfr21
    | standalone =>
      cases hlk : alookup st.programs (pyGet a "program_id") with
      | none => simp only [hlk]
      | some info =>
        simp only [hlk]
        cases hprog : info.program with
        | none => rfl
        | some program =>
          rcases hlm : ensureLm cfg or st with ⟨st2, e | uu⟩
          · have hfr2 := ensureLm_frame cfg or st
            rw [hlm] at hfr2
            simp only [hlm]
            exact hfr2.1
          · have hfr2 := ensureLm_frame cfg or st
            rw [hlm] at hfr2
            have hfr21 : st2.programs = st.programs := hfr2.1
            simp only [hlm]
            rw [executeProgramRun_fail_frame or st2 _ _ info true program hfail]
            exact hfr21

theorem execFold_counts (cfg : BridgeConfig) (or : Oracles) (pid : JVal) :
    ∀ (l : List JVal) (st : Bridge),
    st.mode = .standalone → (∀ a ∈ l, pyGet a "program_id" = pid) →
    execAllOk cfg or l st = true →
    countOf (execFold cfg or l st) pid = countOf st pid + l.length := by
  intro l
  induction l with
  | nil => intro st _ _ _; simp [execFold]
  | cons a rest ih =>
    intro st hmode hpids hok
    simp only [execAllOk] at hok
    rcases hst : executeProgram cfg or st a with ⟨st1, e | r⟩
    · simp only [hst] at hok
      simp at hok
    · simp only [hst] at hok
      have hstep := executeProgram_success_count cfg or st a pid st1 r hmode
        (hpids a (List.mem_cons_self a rest)) hst
      simp only [execFold, hst]
      rw [ih st1 hstep.2 (fun x hx => hpids x (List.mem_cons_of_mem a hx)) hok, hstep.1]
      simp only [List.length_cons]
      omega

/-- C8: (monotonicity) in standalone mode, a sequence of N `execute_program`
calls that all succeed, each addressed to program id `pid`, leaves the
program's `execution_count` at its prior value plus N; (failure) when the
underlying executable raises on every invocation, `execute_program`
leaves the whole program registry — in particular `execution_count` and
`last_executed` of every record — unchanged. -/
theorem execution_counter_monotonic
    (cfg : BridgeConfig) (or or2 : Oracles) (st st2 : Bridge) (pid : JVal)
    (l : List JVal) (args2 : JVal) :
    (st.mode = .standalone → (∀ a ∈ l, pyGet a "program_id" = pid) →
      execAllOk cfg or l st = true →
      countOf (execFold cfg or l st) pid = countOf st pid + l.length) ∧
    ((∀ p i, ∃ m, or2.predictRun p i = Except.error m) →
      (executeProgram cfg or2 st2 args2).1.programs = st2.programs) :=
  ⟨fun hmode hpids hok => execFold_counts cfg or pid l st hmode hpids hok,
   fun hfail => executeProgram_fail_frame cfg or2 st2 args2 hfail⟩

theorem execution_counter_monotonic_witness :
    countOf (execFold cfgStd orAnswer [questionXArgs, questionXArgs] c7St)
        (.str "p1") =
      countOf c7St (.str "p1") + 2 ∧
    (executeProgram cfgStd orFail c7St questionXArgs).1.programs =
      c7St.programs := by
  have h := execution_counter_monotonic cfgStd orAnswer orFail c7St c7St
    (.str "p1") [questionXArgs, questionXArgs] questionXArgs
  refine ⟨h.1 rfl ?_ rfl, h.2 (fun p i => ⟨"boom", rfl⟩)⟩
  intro a ha
  simp only [List.mem_cons, List.mem_singleton] at ha
  rcases ha with h1 | h1 | h1
  · subst h1; rfl
  · subst h1; rfl
  · exact absurd h1 (by simp)
